import Mathlib

/-!
# fc::rpc::websocket_api_connection

A verification development for `src/rpc/websocket_api.cpp`: the constructor (the three
built-in dispatch handlers, the fallback and the transport hooks), `send_call`,
`send_callback`, `send_notice` and `on_message`.

Conventions of the embedding.

* C++ exceptions are explicit: every fallible operation returns an `Except`.  Operations of the
  fc library report failure with an `fc::exception`; application handlers reached through
  `receive_call` / `receive_notice` / `receive_callback` may raise anything (`Thrown`).
* Stateful code is explicit state passing over a `World`: the rpc state (Pending-Call Registry)
  and the state of everything outside the engine (transport, registered APIs).
* Every action the code of this file performs on a collaborator is recorded, in order, in a
  trace of `Event`s.  Actions performed inside application handlers are not part of the trace.
* Code that lives outside this file is a field of `Env` (a parameter of every theorem), unless
  its doc comment says it is modelled from the specification.
-/

namespace fc

/-! ## Data model -/

/-- Modelled from the spec: `fc::variant`, the structured Value of §3/§6 (null, booleans,
64-bit-range integers, doubles kept as their bit pattern, strings, arrays, objects with
named fields).  The class is declared outside this file. -/
inductive variant where
  | null
  | boolean (b : Bool)
  | int64 (v : Int)
  | uint64 (v : Nat)
  | double (bits : Nat)
  | string (s : String)
  | array (elems : List variant)
  | object (fields : List (String × variant))

/-- The type `fc::variants`. -/
abbrev variants := List variant

/-- Modelled from the spec: `fc::exception`, seen through the members this file reads: the
classification code `code()`, the description `to_string()` and the diagnostic
`to_detail_string()`. -/
structure fc_exception where
  code : Int
  to_string : String
  to_detail_string : String

/-- What a C++ `throw` can carry: an `fc::exception` (or a class derived from it), or
anything else (`std::exception`, foreign types). -/
inductive Thrown where
  | fc (e : fc_exception)
  | other (what : String)

/-- Modelled from the spec: `fc::rpc::request`, the Request Envelope of §3. -/
structure request where
  id : Option Nat
  method : String
  params : variants

/-- Modelled from the spec: `fc::rpc::error_object`, the ErrorObject of §3 with the wire
names `code`, `message`, `data` of §6. -/
structure error_object where
  code : Int
  message : String
  data : variant

/-- Modelled from the spec: `fc::rpc::response`, the Response Envelope of §3.  `jsonrpc` is
the fourth constructor argument used in this file. -/
structure response where
  id : Nat
  ssid : String
  jsonrpc : String
  result : Option variant
  error : Option error_object

/-- The constructor `response( id, ssid, result, version )`. -/
def response.with_result (id : Nat) (ssid : String) (result : variant) (version : String) :
    response :=
  { id := id, ssid := ssid, jsonrpc := version, result := some result, error := none }

/-- The constructor `response( id, ssid, error, version )`. -/
def response.with_error (id : Nat) (ssid : String) (error : error_object) (version : String) :
    response :=
  { id := id, ssid := ssid, jsonrpc := version, result := none, error := some error }

/-- Outcome delivered to the rendezvous slot of a pending call (§3). -/
inductive outcome where
  | value (v : variant)
  | error (e : error_object)
  | connection_closed

/-- Modelled from the spec: `fc::rpc::state`, the Pending-Call Registry of §3/§4.1
(`state.cpp` is not among the sources): the next correlation id, the ids of the live
pending entries, and the outcomes delivered so far to rendezvous slots (oldest first). -/
structure state where
  _next_id : Nat
  _awaiting : List Nat
  delivered : List (Nat × outcome)

/-- Everything `on_message` and the send operations can read or change: the rpc state and
the state `ext` of the collaborators outside the engine. -/
structure World (σ : Type) where
  rpc : state
  ext : σ

/-- Actions of the code of this file on its collaborators. -/
inductive Event where
  | local_call (method_name : String) (args : variants)
  | receive_call (api_id : Nat) (method_name : String) (args : variants)
  | receive_notice (callback_id : Nat) (args : variants)
  | receive_callback (callback_id : Nat) (args : variants)
  | handle_reply (reply : response)
  | send_message (message : String)
  | start_remote_call (method_name : String) (args : variants)
  | wait_for_response (id : Nat)
  | closed

/-! ## Structural queries on variants -/

/-- The query `variant::is_array()`. -/
def variant.is_array : variant → Bool
  | .array _ => true
  | _ => false

/-- The query `variant::is_string()`. -/
def variant.is_string : variant → Bool
  | .string _ => true
  | _ => false

/-- The query `variant_object::contains( key )`. -/
def contains (obj : List (String × variant)) (key : String) : Bool :=
  obj.any (fun kv => kv.1 == key)

/-! ## The engine monad -/

/-- Result of running a piece of engine code: what it returned or threw, the world it
left, and the actions it performed. -/
abbrev Ran (σ : Type) (α : Type) := Except Thrown α × World σ × List Event

/-- Engine code: explicit state passing with exceptions and a trace. -/
def Eng (σ : Type) (α : Type) := World σ → Ran σ α

/-- Return normally. -/
def Eng.pure {σ α : Type} (a : α) : Eng σ α := fun w => (.ok a, w, [])

/-- Sequencing: a throw in the first part skips the second; state changes and actions of
the first part persist. -/
def Eng.bind {σ α β : Type} (m : Eng σ α) (f : α → Eng σ β) : Eng σ β := fun w =>
  match m w with
  | (.ok a, w1, t1) =>
    match f a w1 with
    | (r, w2, t2) => (r, w2, t1 ++ t2)
  | (.error e, w1, t1) => (.error e, w1, t1)

instance {σ : Type} : Monad (Eng σ) where
  pure := Eng.pure
  bind := Eng.bind

/-- The statement `throw t`. -/
def Eng.throw {σ α : Type} (t : Thrown) : Eng σ α := fun w => (.error t, w, [])

/-- Record one action. -/
def Eng.emit {σ : Type} (ev : Event) : Eng σ Unit := fun w => (.ok (), w, [ev])

/-- Run a pure fc library operation. -/
def Eng.lift {σ α : Type} (r : Except fc_exception α) : Eng σ α := fun w =>
  match r with
  | .ok a => (.ok a, w, [])
  | .error e => (.error (.fc e), w, [])

/-- Run a stateful collaborator that fails with `fc::exception` only. -/
def Eng.call_fc {σ α : Type} (f : World σ → Except fc_exception α × World σ) : Eng σ α :=
  fun w =>
    match f w with
    | (.ok a, w1) => (.ok a, w1, [])
    | (.error e, w1) => (.error (.fc e), w1, [])

/-- Run a stateful collaborator that may throw anything. -/
def Eng.call_any {σ α : Type} (f : World σ → Except Thrown α × World σ) : Eng σ α := fun w =>
  match f w with
  | (r, w1) => (r, w1, [])

/-- The block `try { body } catch( const fc::exception& e ) { handler }`: only an
`fc::exception` is caught. -/
def Eng.catch_fc {σ α : Type} (body : Eng σ α) (handler : fc_exception → Eng σ α) : Eng σ α :=
  fun w =>
    match body w with
    | (.error (.fc e), w1, t1) =>
      match handler e w1 with
      | (r, w2, t2) => (r, w2, t1 ++ t2)
    | r => r

/-- The block `try { body } catch( ... ) { throw convert( what was thrown ) }`: every
exception is caught and an `fc::exception` is thrown in its place. -/
def Eng.catch_all_rethrow {σ α : Type} (body : Eng σ α) (convert : Thrown → fc_exception) :
    Eng σ α :=
  fun w =>
    match body w with
    | (.error t, w1, t1) => (.error (.fc (convert t)), w1, t1)
    | r => r

/-- Dereference `*opt` of an `fc::optional`. -/
def Eng.deref {σ α : Type} (opt : Option α) : Eng σ α :=
  match opt with
  | some a => Eng.pure a
  | none => Eng.throw (.other "optional is not valid")

/-! ## Collaborators -/

/-- The code this file calls but does not contain.  Pure fc library operations come first,
then the stateful collaborators (the application APIs behind `api_connection`, the
rpc state, the websocket transport). -/
structure Env (σ : Type) where
  /-- The member `_max_conversion_depth`. -/
  max_depth : Nat
  /-- Width in bits of `api_id_type`. -/
  api_id_bits : Nat
  /-- The parser `fc::json::from_string( text, legacy parser, max_depth )`. -/
  from_string : String → Nat → Except fc_exception variant
  /-- The conversion `variant::as_string()`. -/
  as_string : variant → Except fc_exception String
  /-- The conversion `variant::as_uint64()`. -/
  as_uint64 : variant → Except fc_exception Nat
  /-- The conversion `var.as<fc::rpc::request>( max_depth )`. -/
  as_request : variant → Nat → Except fc_exception request
  /-- The conversion `var.as<fc::rpc::response>( max_depth )`. -/
  as_response : variant → Nat → Except fc_exception response
  /-- The conversion `fc::variant( request, max_depth )`. -/
  request_to_variant : request → Nat → Except fc_exception variant
  /-- The conversion `fc::variant( response, max_depth )`. -/
  response_to_variant : response → Nat → Except fc_exception variant
  /-- The conversion `fc::variant( exception, max_depth )`: the structured detail. -/
  exception_to_variant : fc_exception → Nat → Except fc_exception variant
  /-- The encoder `fc::json::to_string( variant, stringify_large_ints_and_doubles, max_depth )`. -/
  to_string : variant → Nat → Except fc_exception String
  /-- The encoder `fc::json::to_string( response, stringify_large_ints_and_doubles, max_depth )`
  applied to a response that was not converted to a variant first. -/
  response_to_string : response → Nat → Except fc_exception String
  /-- The `bad_cast_exception` thrown by `get_object()` / `get_array()` on a variant of
  another kind. -/
  bad_cast_exception : variant → fc_exception
  /-- The `key_not_found_exception` thrown by `variant_object::operator[]`. -/
  key_not_found_exception : String → fc_exception
  /-- The exception thrown by a failed `FC_ASSERT( condition )`. -/
  assert_exception : String → fc_exception
  /-- The macro `FC_CAPTURE_AND_RETHROW( (call.method)(call.params) )`: the `fc::exception`
  that leaves the block for a given thrown value, annotated with method and params. -/
  capture : Thrown → String → variants → fc_exception
  /-- The method `api_connection::receive_call`. -/
  receive_call : Nat → String → variants → World σ → Except Thrown variant × World σ
  /-- The method `api_connection::receive_notice`. -/
  receive_notice : Nat → variants → World σ → Except Thrown Unit × World σ
  /-- The method `api_connection::receive_callback`. -/
  receive_callback : Nat → variants → World σ → Except Thrown variant × World σ
  /-- The method `state::start_remote_call`; it acts on the rpc state only. -/
  start_remote_call : String → variants → state → request × state
  /-- The method `state::handle_reply`. -/
  handle_reply : response → World σ → Except fc_exception Unit × World σ
  /-- The method `state::wait_for_response`: blocks until the slot is fulfilled. -/
  wait_for_response : Nat → World σ → Except Thrown variant × World σ
  /-- The method `websocket_connection::send_message`; it acts on the transport only. -/
  send_message : String → σ → Except fc_exception Unit × σ

/-- The accessor `variant::get_array()`. -/
def get_array {σ : Type} (c : Env σ) (v : variant) : Except fc_exception variants :=
  match v with
  | .array xs => .ok xs
  | _ => .error (c.bad_cast_exception v)

/-- The accessor `variant::get_object()`. -/
def get_object {σ : Type} (c : Env σ) (v : variant) :
    Except fc_exception (List (String × variant)) :=
  match v with
  | .object fs => .ok fs
  | _ => .error (c.bad_cast_exception v)

/-- The accessor `variant_object::operator[]( key )`. -/
def index {σ : Type} (c : Env σ) (obj : List (String × variant)) (key : String) :
    Except fc_exception variant :=
  match obj.find? (fun kv => kv.1 == key) with
  | some kv => .ok kv.2
  | none => .error (c.key_not_found_exception key)

/-! ## Calls into the collaborators, with their trace events -/

/-- The call `this->receive_call( api_id, method_name, args )`. -/
def receive_call {σ : Type} (c : Env σ) (api_id : Nat) (method_name : String) (args : variants) :
    Eng σ variant := do
  Eng.emit (.receive_call api_id method_name args)
  Eng.call_any (c.receive_call api_id method_name args)

/-- The call `this->receive_notice( callback_id, args )`. -/
def receive_notice {σ : Type} (c : Env σ) (callback_id : Nat) (args : variants) : Eng σ Unit := do
  Eng.emit (.receive_notice callback_id args)
  Eng.call_any (c.receive_notice callback_id args)

/-- The call `this->receive_callback( callback_id, args )`. -/
def receive_callback {σ : Type} (c : Env σ) (callback_id : Nat) (args : variants) :
    Eng σ variant := do
  Eng.emit (.receive_callback callback_id args)
  Eng.call_any (c.receive_callback callback_id args)

/-- The call `_connection.send_message( text )`. -/
def send_message {σ : Type} (c : Env σ) (text : String) : Eng σ Unit := do
  Eng.emit (.send_message text)
  Eng.call_fc (fun w =>
    match c.send_message text w.ext with
    | (r, x) => (r, { w with ext := x }))

/-- The call `_rpc_state.handle_reply( reply )`. -/
def handle_reply {σ : Type} (c : Env σ) (reply : response) : Eng σ Unit := do
  Eng.emit (.handle_reply reply)
  Eng.call_fc (c.handle_reply reply)

/-- The call `_rpc_state.wait_for_response( id )`. -/
def wait_for_response {σ : Type} (c : Env σ) (id : Nat) : Eng σ variant := do
  Eng.emit (.wait_for_response id)
  Eng.call_any (c.wait_for_response id)

/-- The statement `FC_ASSERT( condition )`. -/
def fc_assert {σ : Type} (c : Env σ) (condition : Bool) (text : String) : Eng σ Unit :=
  if condition then Eng.pure () else Eng.throw (.fc (c.assert_exception text))

/-! ## The constructor: built-in handlers and the dispatch table -/

/-- The conversion of a 64-bit value to `api_id_type` in `api_id = x.as_uint64()`. -/
def to_api_id {σ : Type} (c : Env σ) (n : Nat) : Nat := n % 2 ^ c.api_id_bits

/-- Lines 16-23 of the "call" handler: the target id, either given as a number or
resolved by name through `receive_call( 1, name )`. -/
def resolve_api_id {σ : Type} (c : Env σ) (target : variant) : Eng σ Nat :=
  if target.is_string then do
    let name ← Eng.lift (c.as_string target)
    let subresult ← receive_call c 1 name []
    let n ← Eng.lift (c.as_uint64 subresult)
    pure (to_api_id c n)
  else do
    let n ← Eng.lift (c.as_uint64 target)
    pure (to_api_id c n)

/-- The handler registered under "call" (lines 13-29). -/
def call_handler {σ : Type} (c : Env σ) (args : variants) : Eng σ variant := do
  fc_assert c (args.length == 3 && (args.getD 2 .null).is_array)
    "args.size() == 3 && args[2].is_array()"
  let api_id ← resolve_api_id c (args.getD 0 .null)
  let method_name ← Eng.lift (c.as_string (args.getD 1 .null))
  let call_args ← Eng.lift (get_array c (args.getD 2 .null))
  receive_call c api_id method_name call_args

/-- The handler registered under "notice" (lines 31-36). -/
def notice_handler {σ : Type} (c : Env σ) (args : variants) : Eng σ variant := do
  fc_assert c (args.length == 2 && (args.getD 1 .null).is_array)
    "args.size() == 2 && args[1].is_array()"
  let callback_id ← Eng.lift (c.as_uint64 (args.getD 0 .null))
  let notice_args ← Eng.lift (get_array c (args.getD 1 .null))
  receive_notice c callback_id notice_args
  pure variant.null

/-- The handler registered under "callback" (lines 38-43). -/
def callback_handler {σ : Type} (c : Env σ) (args : variants) : Eng σ variant := do
  fc_assert c (args.length == 2 && (args.getD 1 .null).is_array)
    "args.size() == 2 && args[1].is_array()"
  let callback_id ← Eng.lift (c.as_uint64 (args.getD 0 .null))
  let callback_args ← Eng.lift (get_array c (args.getD 1 .null))
  let _ ← receive_callback c callback_id callback_args
  pure variant.null

/-- The fallback given to `on_unhandled` (lines 45-48). -/
def unhandled {σ : Type} (c : Env σ) (method_name : String) (args : variants) : Eng σ variant :=
  receive_call c 0 method_name args

/-- Modelled from the spec: the Dispatch Table of §3/§4.2, kept by `fc::rpc::state`
(`state.cpp` is not among the sources): the explicitly registered handlers by method name
and the single fallback. -/
structure dispatch_table (σ : Type) where
  _methods : List (String × (variants → Eng σ variant))
  _unhandled : Option (String → variants → Eng σ variant)

/-- Modelled from the spec: `state::add_method`, register of §4.2.  The names registered
by the constructor are pairwise distinct, so the fail-fast on re-registration is not
reached and is left out. -/
def dispatch_table.add_method {σ : Type} (t : dispatch_table σ) (name : String)
    (handler : variants → Eng σ variant) : dispatch_table σ :=
  { t with _methods := t._methods ++ [(name, handler)] }

/-- Modelled from the spec: `state::on_unhandled`, set_fallback of §4.2. -/
def dispatch_table.on_unhandled {σ : Type} (t : dispatch_table σ)
    (handler : String → variants → Eng σ variant) : dispatch_table σ :=
  { t with _unhandled := some handler }

/-- The dispatch table left by the constructor (lines 13-48). -/
def rpc_methods {σ : Type} (c : Env σ) : dispatch_table σ :=
  ((((({ _methods := [], _unhandled := none } : dispatch_table σ).add_method
    "call" (call_handler c)).add_method
    "notice" (notice_handler c)).add_method
    "callback" (callback_handler c)).on_unhandled
    (unhandled c))

/-- Modelled from the spec: `state::local_call`, dispatch of §4.2: looks up an explicit
entry; if found, invokes it with the params; else invokes the fallback.  Whatever the
handler raises is propagated. -/
def local_call {σ : Type} (c : Env σ) (method_name : String) (args : variants) :
    Eng σ variant := do
  Eng.emit (.local_call method_name args)
  match (rpc_methods c)._methods.lookup method_name with
  | some handler => handler args
  | none =>
    match (rpc_methods c)._unhandled with
    | some fallback => fallback method_name args
    | none => Eng.throw (.fc (c.assert_exception "Unknown Method"))

/-! ## Outbound operations -/

/-- Modelled from the spec: `state::start_remote_call`, begin_call of §4.1: allocates a
fresh correlation id, inserts a pending entry for it and returns the Request Envelope
carrying that id, the method name and the params.  The theorems take the method as the
collaborator `Env.start_remote_call`; this model is the one of the concrete deployment. -/
def state.start_remote_call (s : state) (method_name : String) (args : variants) :
    request × state :=
  ({ id := some s._next_id, method := method_name, params := args },
   { s with _next_id := s._next_id + 1, _awaiting := s._awaiting ++ [s._next_id] })

/-- The call `_rpc_state.start_remote_call( method_name, args )`. -/
def start_remote_call {σ : Type} (c : Env σ) (method_name : String) (args : variants) :
    Eng σ request :=
  fun w =>
    match c.start_remote_call method_name args w.rpc with
    | (req, s) => (.ok req, { w with rpc := s }, [Event.start_remote_call method_name args])

/-- The text `fc::json::to_string( fc::variant( request, depth ), ..., depth )`. -/
def serialize_request {σ : Type} (c : Env σ) (req : request) : Except fc_exception String :=
  match c.request_to_variant req c.max_depth with
  | .ok v => c.to_string v c.max_depth
  | .error e => .error e

/-- The text `fc::json::to_string( variant( response, depth ), ..., depth )`. -/
def serialize_response {σ : Type} (c : Env σ) (r : response) : Except fc_exception String :=
  match c.response_to_variant r c.max_depth with
  | .ok v => c.to_string v c.max_depth
  | .error e => .error e

/-- The operation `websocket_api_connection::send_notice` (lines 76-83). -/
def send_notice {σ : Type} (c : Env σ) (callback_id : Nat) (args : variants) : Eng σ Unit := do
  let req : request :=
    { id := none, method := "notice", params := [.uint64 callback_id, .array args] }
  let text ← Eng.lift (serialize_request c req)
  send_message c text

/-! ## Inbound messages -/

/-- The session tag read at lines 94-96: the `ssid` field as a string, empty when the
object has no such field. -/
def read_ssid {σ : Type} (c : Env σ) (var_obj : List (String × variant)) :
    Except fc_exception String :=
  if contains var_obj "ssid" then
    match index c var_obj "ssid" with
    | .ok field => c.as_string field
    | .error e => .error e
  else
    .ok ""

/-- How the dispatch block of `on_message` (lines 102-137) ends: with `return reply`, or by
falling through with `optexcept` set or empty. -/
inductive dispatched where
  | returned (reply : String)
  | fell_through (optexcept : Option fc_exception)

/-- Lines 124-125 and 142-143: `if( send_message ) _connection.send_message( reply );`. -/
def push {σ : Type} (c : Env σ) (send_msg : Bool) (reply : String) : Eng σ Unit :=
  if send_msg then send_message c reply else pure ()

/-- Lines 121-127: build the success reply when the request has an id, push it in duplex
mode, and return it. -/
def reply_result {σ : Type} (c : Env σ) (call : request) (ssid : String) (send_msg : Bool)
    (result : variant) : Eng σ dispatched :=
  if call.id.isSome then do
    let id ← Eng.deref call.id
    let reply ← Eng.lift
      (c.response_to_string (response.with_result id ssid result "2.0") c.max_depth)
    push c send_msg reply
    pure (dispatched.returned reply)
  else
    pure (dispatched.fell_through none)

/-- Lines 102-137: the inner `try` with its FC_CAPTURE_AND_RETHROW (line 129), inside the
`try` whose handler (lines 131-137) keeps the exception when the request has an id. -/
def try_dispatch {σ : Type} (c : Env σ) (call : request) (ssid : String) (send_msg : Bool) :
    Eng σ dispatched :=
  Eng.catch_fc
    (Eng.catch_all_rethrow
      (do
        let result ← local_call c call.method call.params
        reply_result c call ssid send_msg result)
      (fun t => c.capture t call.method call.params))
    (fun e => pure (dispatched.fell_through (if call.id.isSome then some e else none)))

/-- Lines 138-146: build the error reply from the kept exception, push it in duplex mode,
and return it. -/
def reply_error {σ : Type} (c : Env σ) (call : request) (ssid : String) (send_msg : Bool)
    (e : fc_exception) : Eng σ String := do
  let id ← Eng.deref call.id
  let data ← Eng.lift (c.exception_to_variant e c.max_depth)
  let reply ← Eng.lift (serialize_response c
    (response.with_error id ssid { code := 1, message := e.to_string, data := data } "2.0"))
  push c send_msg reply
  pure reply

/-- Lines 101-147 and 159: dispatch a decoded request and reply. -/
def handle_request {σ : Type} (c : Env σ) (call : request) (ssid : String) (send_msg : Bool) :
    Eng σ String := do
  let ended ← try_dispatch c call ssid send_msg
  match ended with
  | .returned reply => pure reply
  | .fell_through (some e) => reply_error c call ssid send_msg e
  | .fell_through none => pure ""

/-- The operation `websocket_api_connection::on_message` (lines 85-160). -/
def on_message {σ : Type} (c : Env σ) (message : String) (send_msg : Bool) : Eng σ String :=
  Eng.catch_fc
    (do
      let var ← Eng.lift (c.from_string message c.max_depth)
      let var_obj ← Eng.lift (get_object c var)
      let ssid ← Eng.lift (read_ssid c var_obj)
      if contains var_obj "method" then do
        let call ← Eng.lift (c.as_request var c.max_depth)
        handle_request c call ssid send_msg
      else do
        let reply ← Eng.lift (c.as_response var c.max_depth)
        handle_reply c reply
        pure "")
    (fun e => pure e.to_detail_string)

/-- The hook given to `_connection.on_message_handler` (line 50): duplex push. -/
def message_handler {σ : Type} (c : Env σ) (msg : String) : Eng σ Unit := do
  let _ ← on_message c msg true
  pure ()

/-- The hook given to `_connection.on_http_handler` (line 51): inline reply. -/
def http_handler {σ : Type} (c : Env σ) (msg : String) : Eng σ String :=
  on_message c msg false

/-! ## Connection close -/

/-- Modelled from the spec: `state::close`, drain_on_close of §4.1: fulfills every
still-pending entry with a synthetic connection-closed failure, then clears the registry. -/
def state.close (s : state) : state :=
  { s with
    _awaiting := []
    delivered := s.delivered ++ s._awaiting.map (fun id => (id, outcome.connection_closed)) }

/-- Modelled from the spec: `api_connection::closed`, which the close hook invokes
(on_transport_closed of §4.3: invokes the Pending-Call Registry drain_on_close).  Its
definition is not among the sources. -/
def closed {σ : Type} : Eng σ Unit := fun w =>
  (.ok (), { w with rpc := w.rpc.close }, [Event.closed])

/-- The hook connected to `_connection.closed` (line 52). -/
def closed_handler {σ : Type} : Eng σ Unit := closed

/-! ## Observations on traces and decoding -/

/-- The texts handed to the transport, in order. -/
def sent : List Event → List String
  | [] => []
  | Event.send_message text :: rest => text :: sent rest
  | _ :: rest => sent rest

/-- The invocations of the Dispatch Table, in order. -/
def dispatches : List Event → List (String × variants)
  | [] => []
  | Event.local_call m a :: rest => (m, a) :: dispatches rest
  | _ :: rest => dispatches rest

/-- The responses handed to the Pending-Call Registry, in order. -/
def replies_handled : List Event → List response
  | [] => []
  | Event.handle_reply r :: rest => r :: replies_handled rest
  | _ :: rest => replies_handled rest

/-- The decoding steps of `on_message` on their own (lines 91-100 and 150): parse the text,
take the top-level object, read the session tag, and convert to a request when the object
has a `method` field, to a response otherwise. -/
def decode {σ : Type} (c : Env σ) (message : String) :
    Except fc_exception (String × (request ⊕ response)) :=
  match c.from_string message c.max_depth with
  | .error e => .error e
  | .ok var =>
    match get_object c var with
    | .error e => .error e
    | .ok var_obj =>
      match read_ssid c var_obj with
      | .error e => .error e
      | .ok ssid =>
        if contains var_obj "method" then
          match c.as_request var c.max_depth with
          | .ok call => .ok (ssid, .inl call)
          | .error e => .error e
        else
          match c.as_response var c.max_depth with
          | .ok reply => .ok (ssid, .inr reply)
          | .error e => .error e


/-- Engine code whose own trace holds no transport send and no registry hand-over. -/
def Eng.quiet {σ α : Type} (m : Eng σ α) : Prop :=
  ∀ w, sent (m w).2.2 = [] ∧ replies_handled (m w).2.2 = []

/-- Engine code that lets only an `fc::exception` escape. -/
def Eng.raises_fc_only {σ α : Type} (m : Eng σ α) : Prop :=
  ∀ w t, (m w).1 = .error t → ∃ e, t = Thrown.fc e


/-! ## A concrete deployment

A small instance of the collaborators: a JSON-like codec restricted to a handful of texts, a
root API with three methods, one callback, and a transport that appends to an outbox. -/

namespace demo

/-- Field access by name in an object. -/
def field (fs : List (String × variant)) (key : String) : Option variant :=
  (fs.find? (fun kv => kv.1 == key)).map (fun kv => kv.2)

/-- Failure of the parser. -/
def parse_error : fc_exception :=
  { code := 4, to_string := "parse_error_exception",
    to_detail_string := "4 parse_error_exception: unexpected input" }

/-- Failure of a conversion. -/
def bad_cast : fc_exception :=
  { code := 7, to_string := "bad_cast_exception",
    to_detail_string := "7 bad_cast_exception: invalid cast" }

/-- Failure of the encoder on a value nested deeper than the limit. -/
def too_deep : fc_exception :=
  { code := 10, to_string := "Assert Exception: max_depth > 0",
    to_detail_string := "10 assert_exception: Too many nested objects!" }

/-- Failure raised by the API method "fail". -/
def failure : fc_exception :=
  { code := 10, to_string := "Assert Exception: balance >= amount",
    to_detail_string := "10 assert_exception: balance >= amount" }

/-- Text of a request with id 1 and session tag "s1" for the method "get_info". -/
def get_info_text : String :=
  "\x7b\"id\":1,\"ssid\":\"s1\",\"method\":\"get_info\",\"params\":[]\x7d"

/-- Text of a request with id 2 for the method "fail". -/
def fail_text : String :=
  "\x7b\"id\":2,\"method\":\"fail\",\"params\":[]\x7d"

/-- Text of a callback request without id. -/
def notice_text : String :=
  "\x7b\"method\":\"callback\",\"params\":[42,[\"x\"]]\x7d"

/-- Text of a response to the pending call 7. -/
def reply_text : String :=
  "\x7b\"id\":7,\"result\":true\x7d"

/-- The parser, restricted to the texts above. -/
def from_string (text : String) (_max_depth : Nat) : Except fc_exception variant :=
  if text = get_info_text then
    .ok (.object [("id", .uint64 1), ("ssid", .string "s1"), ("method", .string "get_info"),
      ("params", .array [])])
  else if text = fail_text then
    .ok (.object [("id", .uint64 2), ("method", .string "fail"), ("params", .array [])])
  else if text = notice_text then
    .ok (.object [("method", .string "callback"),
      ("params", .array [.uint64 42, .array [.string "x"]])])
  else if text = reply_text then
    .ok (.object [("id", .uint64 7), ("result", .boolean true)])
  else
    .error parse_error

/-- String conversion of strings and null. -/
def as_string : variant → Except fc_exception String
  | .string s => .ok s
  | .null => .ok ""
  | _ => .error bad_cast

/-- Integer conversion of integers, booleans and null. -/
def as_uint64 : variant → Except fc_exception Nat
  | .uint64 n => .ok n
  | .int64 i => .ok (i.toNat % 2 ^ 64)
  | .boolean b => .ok (if b then 1 else 0)
  | .null => .ok 0
  | _ => .error bad_cast

/-- Conversion of an object to a request: `id` and `params` are optional. -/
def as_request (v : variant) (_max_depth : Nat) : Except fc_exception request :=
  match v with
  | .object fs =>
    match field fs "method", field fs "params" with
    | some (.string m), some (.array ps) =>
      .ok { id := (match field fs "id" with
                   | some (.uint64 n) => some n
                   | _ => none),
            method := m, params := ps }
    | some (.string m), none =>
      .ok { id := (match field fs "id" with
                   | some (.uint64 n) => some n
                   | _ => none),
            method := m, params := [] }
    | _, _ => .error bad_cast
  | _ => .error bad_cast

/-- Conversion of an object to a response: `id` is required. -/
def as_response (v : variant) (_max_depth : Nat) : Except fc_exception response :=
  match v with
  | .object fs =>
    match field fs "id" with
    | some (.uint64 n) =>
      .ok { id := n,
            ssid := (match field fs "ssid" with
                     | some (.string s) => s
                     | _ => ""),
            jsonrpc := "2.0",
            result := field fs "result",
            error := none }
    | _ => .error bad_cast
  | _ => .error bad_cast

/-- A request as an object. -/
def request_to_variant (r : request) (_max_depth : Nat) : Except fc_exception variant :=
  match r.id with
  | some i =>
    .ok (.object [("id", .uint64 i), ("method", .string r.method), ("params", .array r.params)])
  | none => .ok (.object [("method", .string r.method), ("params", .array r.params)])

/-- An error object as an object. -/
def error_to_variant (e : error_object) : variant :=
  .object [("code", .int64 e.code), ("message", .string e.message), ("data", e.data)]

/-- A response as an object. -/
def response_to_variant (r : response) (_max_depth : Nat) : Except fc_exception variant :=
  match r.result, r.error with
  | some v, _ =>
    .ok (.object [("id", .uint64 r.id), ("ssid", .string r.ssid), ("jsonrpc", .string r.jsonrpc),
      ("result", v)])
  | none, some e =>
    .ok (.object [("id", .uint64 r.id), ("ssid", .string r.ssid), ("jsonrpc", .string r.jsonrpc),
      ("error", error_to_variant e)])
  | none, none =>
    .ok (.object [("id", .uint64 r.id), ("ssid", .string r.ssid), ("jsonrpc", .string r.jsonrpc)])

/-- The structured detail of an exception. -/
def exception_to_variant (e : fc_exception) (_max_depth : Nat) : Except fc_exception variant :=
  .ok (.object [("code", .int64 e.code), ("name", .string e.to_string)])

/-- The encoder: JSON without escapes, refusing values nested deeper than `depth`. -/
def to_string : variant → Nat → Except fc_exception String
  | _, 0 => .error too_deep
  | .null, _ + 1 => .ok "null"
  | .boolean b, _ + 1 => .ok (if b then "true" else "false")
  | .int64 v, _ + 1 => .ok (toString v)
  | .uint64 v, _ + 1 => .ok (toString v)
  | .double bits, _ + 1 => .ok (toString bits)
  | .string s, _ + 1 => .ok ("\"" ++ s ++ "\"")
  | .array xs, depth + 1 =>
    match xs.mapM (fun x => to_string x depth) with
    | .ok parts => .ok ("[" ++ ",".intercalate parts ++ "]")
    | .error e => .error e
  | .object fs, depth + 1 =>
    match fs.mapM (fun kv =>
        match to_string kv.2 depth with
        | .ok s => Except.ok ("\"" ++ kv.1 ++ "\":" ++ s)
        | .error e => Except.error e) with
    | .ok parts => .ok ("\x7b" ++ ",".intercalate parts ++ "\x7d")
    | .error e => .error e

/-- The encoder applied to a response directly. -/
def response_to_string (r : response) (depth : Nat) : Except fc_exception String :=
  match response_to_variant r depth with
  | .ok v => to_string v depth
  | .error e => .error e

/-- The exception that FC_CAPTURE_AND_RETHROW lets out: an fc exception keeps its code and
description and gains context in its diagnostic; anything else becomes a std exception. -/
def capture (t : Thrown) (method_name : String) (_params : variants) : fc_exception :=
  match t with
  | .fc e => { e with to_detail_string := e.to_detail_string ++ " method: " ++ method_name }
  | .other what =>
    { code := 13, to_string := what, to_detail_string := "13 std_exception: " ++ what }

/-- The root API (id 0) with the methods "get_info", "fail" and "crash"; id 1 resolves the
name "database" to the API id 2. -/
def receive_call (api_id : Nat) (method_name : String) (_args : variants)
    (w : World (List String)) : Except Thrown variant × World (List String) :=
  if api_id = 0 ∧ method_name = "get_info" then
    (.ok (.object [("version", .string "1.0")]), w)
  else if api_id = 0 ∧ method_name = "fail" then
    (.error (.fc failure), w)
  else if api_id = 0 ∧ method_name = "crash" then
    (.error (.other "std::bad_alloc"), w)
  else if api_id = 1 ∧ method_name = "database" then
    (.ok (.uint64 2), w)
  else
    (.error (.fc bad_cast), w)

/-- Notices are accepted. -/
def receive_notice (_callback_id : Nat) (_args : variants) (w : World (List String)) :
    Except Thrown Unit × World (List String) :=
  (.ok (), w)

/-- The callback 42 acknowledges; any other id is unknown. -/
def receive_callback (callback_id : Nat) (_args : variants) (w : World (List String)) :
    Except Thrown variant × World (List String) :=
  if callback_id = 42 then (.ok (.string "ack"), w) else (.error (.fc bad_cast), w)

/-- The registry fulfills a pending entry and drops a reply without one. -/
def handle_reply (r : response) (w : World (List String)) :
    Except fc_exception Unit × World (List String) :=
  if r.id ∈ w.rpc._awaiting then
    (.ok (), { w with rpc := { w.rpc with
        _awaiting := w.rpc._awaiting.filter (fun i => i != r.id)
        delivered := w.rpc.delivered ++ [(r.id,
          match r.result, r.error with
          | some v, _ => outcome.value v
          | none, some e => outcome.error e
          | none, none => outcome.value .null)] } })
  else
    (.ok (), w)

/-- A wait that finds its slot already fulfilled with null. -/
def wait_for_response (_id : Nat) (w : World (List String)) :
    Except Thrown variant × World (List String) :=
  (.ok .null, w)

/-- A transport that appends the text to its outbox. -/
def send_message (text : String) (outbox : List String) :
    Except fc_exception Unit × List String :=
  (.ok (), outbox ++ [text])

/-- The deployment. -/
def env : Env (List String) :=
  { max_depth := 8
    api_id_bits := 32
    from_string := from_string
    as_string := as_string
    as_uint64 := as_uint64
    as_request := as_request
    as_response := as_response
    request_to_variant := request_to_variant
    response_to_variant := response_to_variant
    exception_to_variant := exception_to_variant
    to_string := to_string
    response_to_string := response_to_string
    bad_cast_exception := fun _ => bad_cast
    key_not_found_exception := fun _ => bad_cast
    assert_exception := fun text =>
      { code := 10, to_string := "Assert Exception: " ++ text,
        to_detail_string := "10 assert_exception: " ++ text }
    capture := capture
    receive_call := receive_call
    receive_notice := receive_notice
    receive_callback := receive_callback
    start_remote_call := fun method_name args s => s.start_remote_call method_name args
    handle_reply := handle_reply
    wait_for_response := wait_for_response
    send_message := send_message }

/-- A connection with the calls 5 and 7 outstanding and an empty outbox. -/
def w0 : World (List String) :=
  { rpc := { _next_id := 8, _awaiting := [5, 7], delivered := [] }, ext := [] }

end demo

namespace demo

/-- The reply to `get_info_text`. -/
def get_info_reply : String :=
  "\x7b\"id\":1,\"ssid\":\"s1\",\"jsonrpc\":\"2.0\",\"result\":\x7b\"version\":\"1.0\"\x7d\x7d"

/-- The reply to `fail_text`: the error code on the wire is 1. -/
def fail_reply : String :=
  "\x7b\"id\":2,\"ssid\":\"\",\"jsonrpc\":\"2.0\",\"error\":\x7b\"code\":1,\"message\":\"Assert Exception: balance >= amount\",\"data\":\x7b\"code\":10,\"name\":\"Assert Exception: balance >= amount\"\x7d\x7d\x7d"

/-- The error envelope for `fail_text` with the classification code of the failure (10) in
the place of the constant 1. -/
def fail_reply_with_classification : String :=
  "\x7b\"id\":2,\"ssid\":\"\",\"jsonrpc\":\"2.0\",\"error\":\x7b\"code\":10,\"message\":\"Assert Exception: balance >= amount\",\"data\":\x7b\"code\":10,\"name\":\"Assert Exception: balance >= amount\"\x7d\x7d\x7d"

/-- The text of `send_notice( 42, ["x"] )`. -/
def notice_out_text : String :=
  "\x7b\"method\":\"notice\",\"params\":[42,[\"x\"]]\x7d"

end demo


/-- Engine code whose own trace holds no invocation of the Dispatch Table. -/
def Eng.no_dispatch {σ α : Type} (m : Eng σ α) : Prop :=
  ∀ w, dispatches (m w).2.2 = []

/-- The condition of the FC_ASSERT that guards the handler of a built-in method (lines 15,
33 and 40). -/
def guard_text (method_name : String) : String :=
  if method_name = "call" then "args.size() == 3 && args[2].is_array()"
  else "args.size() == 2 && args[1].is_array()"

namespace demo

/-- Text of the request `call( 0, "get_info", [] )` with id 1 and no session tag. -/
def call_get_info_text : String :=
  "\x7b\"id\":1,\"method\":\"call\",\"params\":[0,\"get_info\",[]]\x7d"

/-- The reply to `call_get_info_text`. -/
def call_get_info_reply : String :=
  "\x7b\"id\":1,\"ssid\":\"\",\"jsonrpc\":\"2.0\",\"result\":\x7b\"version\":\"1.0\"\x7d\x7d"

/-- Text of a callback request with id 3 for the callback 42. -/
def callback_request_text : String :=
  "\x7b\"id\":3,\"method\":\"callback\",\"params\":[42,[\"x\"]]\x7d"

/-- The reply to `callback_request_text`: the result on the wire is null. -/
def callback_reply : String :=
  "\x7b\"id\":3,\"ssid\":\"\",\"jsonrpc\":\"2.0\",\"result\":null\x7d"

/-- The success envelope for `callback_request_text` with the value the callback 42
returned ("ack") in the place of null. -/
def callback_reply_with_value : String :=
  "\x7b\"id\":3,\"ssid\":\"\",\"jsonrpc\":\"2.0\",\"result\":\"ack\"\x7d"

/-- Text of a "call" request with id 4 whose params have two elements only. -/
def malformed_call_text : String :=
  "\x7b\"id\":4,\"method\":\"call\",\"params\":[0,\"get_info\"]\x7d"

/-- The reply to `malformed_call_text`: an error envelope carrying the failed assertion. -/
def malformed_call_reply : String :=
  "\x7b\"id\":4,\"ssid\":\"\",\"jsonrpc\":\"2.0\",\"error\":\x7b\"code\":1,\"message\":\"Assert Exception: args.size() == 3 && args[2].is_array()\",\"data\":\x7b\"code\":10,\"name\":\"Assert Exception: args.size() == 3 && args[2].is_array()\"\x7d\x7d\x7d"

/-- The parser of `from_string`, extended with the three texts above. -/
def from_string2 (text : String) (max_depth : Nat) : Except fc_exception variant :=
  if text = call_get_info_text then
    .ok (.object [("id", .uint64 1), ("method", .string "call"),
      ("params", .array [.uint64 0, .string "get_info", .array []])])
  else if text = callback_request_text then
    .ok (.object [("id", .uint64 3), ("method", .string "callback"),
      ("params", .array [.uint64 42, .array [.string "x"]])])
  else if text = malformed_call_text then
    .ok (.object [("id", .uint64 4), ("method", .string "call"),
      ("params", .array [.uint64 0, .string "get_info"])])
  else
    from_string text max_depth

/-- The APIs of `receive_call`, extended with the API id 2 (the one the name "database"
resolves to) and its method "get_block". -/
def receive_call2 (api_id : Nat) (method_name : String) (args : variants)
    (w : World (List String)) : Except Thrown variant × World (List String) :=
  if api_id = 2 ∧ method_name = "get_block" then
    (.ok (.object [("block", .uint64 7)]), w)
  else
    receive_call api_id method_name args w

/-- The deployment with the extended parser and APIs. -/
def env2 : Env (List String) :=
  { env with from_string := from_string2, receive_call := receive_call2 }

end demo

/-! ## Running engine code -/

theorem run_bind {σ α β : Type} (m : Eng σ α) (f : α → Eng σ β) (w : World σ) :
    (m >>= f) w = Eng.bind m f w := rfl

theorem run_pure {σ α : Type} (a : α) (w : World σ) :
    (pure a : Eng σ α) w = (.ok a, w, []) := rfl

theorem bind_ok {σ α β : Type} {m : Eng σ α} {f : α → Eng σ β} {w w1 : World σ} {a : α}
    {t1 : List Event} (h : m w = (.ok a, w1, t1)) :
    Eng.bind m f w = ((f a w1).1, (f a w1).2.1, t1 ++ (f a w1).2.2) := by
  simp [Eng.bind, h]

theorem bind_error {σ α β : Type} {m : Eng σ α} {f : α → Eng σ β} {w w1 : World σ} {e : Thrown}
    {t1 : List Event} (h : m w = (.error e, w1, t1)) :
    Eng.bind m f w = (.error e, w1, t1) := by
  simp [Eng.bind, h]

theorem lift_ok {σ α : Type} {r : Except fc_exception α} {a : α} (h : r = .ok a) (w : World σ) :
    Eng.lift r w = (.ok a, w, []) := by
  subst h; rfl

theorem lift_error {σ α : Type} {r : Except fc_exception α} {e : fc_exception}
    (h : r = .error e) (w : World σ) :
    Eng.lift r w = (.error (.fc e), w, []) := by
  subst h; rfl

/-- The transport call: one send event, the transport state after the send, and the
result of the send. -/
theorem send_message_run {σ : Type} (c : Env σ) (text : String) (w : World σ) :
    send_message c text w =
      ((match (c.send_message text w.ext).1 with
        | .ok _ => .ok ()
        | .error e => .error (.fc e)),
       { w with ext := (c.send_message text w.ext).2 },
       [Event.send_message text]) := by
  rcases h : c.send_message text w.ext with ⟨r, x⟩
  cases r <;> simp [send_message, run_bind, Eng.bind, Eng.emit, Eng.call_fc, h]

/-! ## Observations are additive over traces -/

theorem sent_append (xs ys : List Event) : sent (xs ++ ys) = sent xs ++ sent ys := by
  induction xs with
  | nil => rfl
  | cons x xs ih => cases x <;> simp [sent, ih]

theorem dispatches_append (xs ys : List Event) :
    dispatches (xs ++ ys) = dispatches xs ++ dispatches ys := by
  induction xs with
  | nil => rfl
  | cons x xs ih => cases x <;> simp [dispatches, ih]

theorem replies_handled_append (xs ys : List Event) :
    replies_handled (xs ++ ys) = replies_handled xs ++ replies_handled ys := by
  induction xs with
  | nil => rfl
  | cons x xs ih => cases x <;> simp [replies_handled, ih]

/-! ## Quiet code -/

theorem quiet_pure {σ α : Type} (a : α) : (pure a : Eng σ α).quiet := by
  intro w; simp [run_pure, sent, replies_handled]

theorem quiet_throw {σ α : Type} (t : Thrown) : (Eng.throw t : Eng σ α).quiet := by
  intro w; simp [Eng.throw, sent, replies_handled]

theorem quiet_lift {σ α : Type} (r : Except fc_exception α) : (Eng.lift r : Eng σ α).quiet := by
  intro w; cases r <;> simp [Eng.lift, sent, replies_handled]

theorem quiet_call_any {σ α : Type} (f : World σ → Except Thrown α × World σ) :
    (Eng.call_any f).quiet := by
  intro w; simp [Eng.call_any, sent, replies_handled]

theorem quiet_bind {σ α β : Type} {m : Eng σ α} {f : α → Eng σ β} (hm : m.quiet)
    (hf : ∀ a, (f a).quiet) : (m >>= f).quiet := by
  intro w
  rw [run_bind]
  rcases h : m w with ⟨r, w1, t1⟩
  have h1 := hm w
  rw [h] at h1
  cases r with
  | error e => rw [bind_error h]; exact h1
  | ok a =>
    rw [bind_ok h]
    have h2 := hf a w1
    simp only [sent_append, replies_handled_append]
    simp_all

theorem quiet_fc_assert {σ : Type} (c : Env σ) (b : Bool) (s : String) :
    (fc_assert c b s).quiet := by
  unfold fc_assert
  cases b
  · exact quiet_throw _
  · exact quiet_pure _

theorem quiet_receive_call {σ : Type} (c : Env σ) (n : Nat) (m : String) (a : variants) :
    (receive_call c n m a).quiet := by
  intro w; simp [receive_call, run_bind, Eng.bind, Eng.emit, Eng.call_any, sent, replies_handled]

theorem quiet_receive_notice {σ : Type} (c : Env σ) (n : Nat) (a : variants) :
    (receive_notice c n a).quiet := by
  intro w; simp [receive_notice, run_bind, Eng.bind, Eng.emit, Eng.call_any, sent, replies_handled]

theorem quiet_receive_callback {σ : Type} (c : Env σ) (n : Nat) (a : variants) :
    (receive_callback c n a).quiet := by
  intro w
  simp [receive_callback, run_bind, Eng.bind, Eng.emit, Eng.call_any, sent, replies_handled]

theorem quiet_resolve_api_id {σ : Type} (c : Env σ) (target : variant) :
    (resolve_api_id c target).quiet := by
  unfold resolve_api_id
  split
  · exact quiet_bind (quiet_lift _) (fun _ => quiet_bind (quiet_receive_call _ _ _ _)
      (fun _ => quiet_bind (quiet_lift _) (fun _ => quiet_pure _)))
  · exact quiet_bind (quiet_lift _) (fun _ => quiet_pure _)

theorem quiet_call_handler {σ : Type} (c : Env σ) (args : variants) :
    (call_handler c args).quiet := by
  unfold call_handler
  exact quiet_bind (quiet_fc_assert _ _ _) (fun _ => quiet_bind (quiet_resolve_api_id _ _)
    (fun _ => quiet_bind (quiet_lift _) (fun _ => quiet_bind (quiet_lift _)
      (fun _ => quiet_receive_call _ _ _ _))))

theorem quiet_notice_handler {σ : Type} (c : Env σ) (args : variants) :
    (notice_handler c args).quiet := by
  unfold notice_handler
  exact quiet_bind (quiet_fc_assert _ _ _) (fun _ => quiet_bind (quiet_lift _)
    (fun _ => quiet_bind (quiet_lift _) (fun _ => quiet_bind (quiet_receive_notice _ _ _)
      (fun _ => quiet_pure _))))

theorem quiet_callback_handler {σ : Type} (c : Env σ) (args : variants) :
    (callback_handler c args).quiet := by
  unfold callback_handler
  exact quiet_bind (quiet_fc_assert _ _ _) (fun _ => quiet_bind (quiet_lift _)
    (fun _ => quiet_bind (quiet_lift _) (fun _ => quiet_bind (quiet_receive_callback _ _ _)
      (fun _ => quiet_pure _))))

/-- The table left by the constructor, entry by entry. -/
theorem rpc_methods_eq {σ : Type} (c : Env σ) :
    rpc_methods c =
      { _methods := [("call", call_handler c), ("notice", notice_handler c),
          ("callback", callback_handler c)],
        _unhandled := some (unhandled c) } := rfl

/-- Dispatch by method name, spelled out for the table left by the constructor. -/
theorem local_call_eq {σ : Type} (c : Env σ) (method_name : String) (args : variants) :
    local_call c method_name args =
      (Eng.emit (.local_call method_name args) >>= fun _ =>
        if method_name = "call" then call_handler c args
        else if method_name = "notice" then notice_handler c args
        else if method_name = "callback" then callback_handler c args
        else unhandled c method_name args) := by
  unfold local_call
  rw [rpc_methods_eq]
  by_cases h1 : method_name = "call"
  · subst h1; rfl
  · by_cases h2 : method_name = "notice"
    · subst h2; rfl
    · by_cases h3 : method_name = "callback"
      · subst h3; rfl
      · have e1 : (method_name == "call") = false := by simp [h1]
        have e2 : (method_name == "notice") = false := by simp [h2]
        have e3 : (method_name == "callback") = false := by simp [h3]
        simp [List.lookup, h1, h2, h3, e1, e2, e3]


theorem quiet_emit_local_call {σ : Type} (m : String) (a : variants) :
    (Eng.emit (.local_call m a) : Eng σ Unit).quiet := by
  intro w; simp [Eng.emit, sent, replies_handled]

/-- Dispatching sends nothing over the transport and hands nothing to the registry. -/
theorem quiet_local_call {σ : Type} (c : Env σ) (method_name : String) (args : variants) :
    (local_call c method_name args).quiet := by
  rw [local_call_eq]
  refine quiet_bind (quiet_emit_local_call _ _) (fun _ => ?_)
  split
  · exact quiet_call_handler _ _
  · split
    · exact quiet_notice_handler _ _
    · split
      · exact quiet_callback_handler _ _
      · exact quiet_receive_call _ _ _ _

/-! ## Only fc exceptions escape -/

theorem fc_only_pure {σ α : Type} (a : α) : (pure a : Eng σ α).raises_fc_only := by
  intro w t h; simp [run_pure] at h

theorem fc_only_lift {σ α : Type} (r : Except fc_exception α) :
    (Eng.lift r : Eng σ α).raises_fc_only := by
  intro w t h
  cases r with
  | ok a => simp [Eng.lift] at h
  | error e => exact ⟨e, by simpa [Eng.lift] using h.symm⟩

theorem fc_only_bind {σ α β : Type} {m : Eng σ α} {f : α → Eng σ β} (hm : m.raises_fc_only)
    (hf : ∀ a, (f a).raises_fc_only) : (m >>= f).raises_fc_only := by
  intro w t h
  rw [run_bind] at h
  rcases hmw : m w with ⟨r, w1, t1⟩
  cases r with
  | error e =>
    rw [bind_error hmw] at h
    have h' : e = t := by simpa using h
    exact hm w t (by rw [hmw, h'])
  | ok a =>
    rw [bind_ok hmw] at h
    exact hf a w1 t h

theorem fc_only_send_message {σ : Type} (c : Env σ) (text : String) :
    (send_message c text).raises_fc_only := by
  intro w t h
  rw [send_message_run] at h
  rcases hs : (c.send_message text w.ext).1 with e | u
  · rw [hs] at h; exact ⟨e, by simpa using h.symm⟩
  · rw [hs] at h; simp at h

theorem fc_only_handle_reply {σ : Type} (c : Env σ) (r : response) :
    (handle_reply c r).raises_fc_only := by
  intro w t h
  rcases hs : c.handle_reply r w with ⟨res, w1⟩
  cases res with
  | error e =>
    refine ⟨e, ?_⟩
    simpa [handle_reply, run_bind, Eng.bind, Eng.emit, Eng.call_fc, hs] using h.symm
  | ok u => simp [handle_reply, run_bind, Eng.bind, Eng.emit, Eng.call_fc, hs] at h

theorem fc_only_catch_all_rethrow {σ α : Type} (body : Eng σ α) (convert : Thrown → fc_exception) :
    (Eng.catch_all_rethrow body convert).raises_fc_only := by
  intro w t h
  rcases hb : body w with ⟨r, w1, t1⟩
  cases r with
  | error e => exact ⟨convert e, by simpa [Eng.catch_all_rethrow, hb] using h.symm⟩
  | ok a => simp [Eng.catch_all_rethrow, hb] at h

/-- A `try` whose body lets only fc exceptions escape and whose handler returns normally
always returns normally. -/
theorem catch_fc_returns {σ α : Type} {body : Eng σ α} {handler : fc_exception → Eng σ α}
    (hb : body.raises_fc_only) (hh : ∀ e w, ∃ a, (handler e w).1 = .ok a) (w : World σ) :
    ∃ a, (Eng.catch_fc body handler w).1 = .ok a := by
  rcases h : body w with ⟨r, w1, t1⟩
  cases r with
  | ok a => exact ⟨a, by simp [Eng.catch_fc, h]⟩
  | error t =>
    obtain ⟨e, rfl⟩ := hb w t (by rw [h])
    obtain ⟨a, ha⟩ := hh e w1
    exact ⟨a, by simp [Eng.catch_fc, h, ha]⟩

/-! ## The stages of on_message -/

theorem reply_result_notice {σ : Type} (c : Env σ) {call : request} (ssid : String)
    (send_msg : Bool) (result : variant) (w : World σ) (hid : call.id = none) :
    reply_result c call ssid send_msg result w = (.ok (.fell_through none), w, []) := by
  simp [reply_result, hid, run_pure]

theorem reply_result_encode_error {σ : Type} (c : Env σ) {call : request} {i : Nat}
    (ssid : String) (send_msg : Bool) (result : variant) (w : World σ) {e : fc_exception}
    (hid : call.id = some i)
    (henc : c.response_to_string (response.with_result i ssid result "2.0") c.max_depth
      = .error e) :
    reply_result c call ssid send_msg result w = (.error (.fc e), w, []) := by
  simp [reply_result, hid, run_bind, Eng.bind, Eng.deref, Eng.pure, Eng.lift, henc]

theorem reply_result_inline {σ : Type} (c : Env σ) {call : request} {i : Nat}
    (ssid : String) (result : variant) (w : World σ) {t : String}
    (hid : call.id = some i)
    (henc : c.response_to_string (response.with_result i ssid result "2.0") c.max_depth
      = .ok t) :
    reply_result c call ssid false result w = (.ok (.returned t), w, []) := by
  simp [reply_result, hid, run_bind, Eng.bind, Eng.deref, Eng.pure, Eng.lift, henc, run_pure,
    push]

theorem reply_result_push {σ : Type} (c : Env σ) {call : request} {i : Nat}
    (ssid : String) (result : variant) (w : World σ) {t : String}
    (hid : call.id = some i)
    (henc : c.response_to_string (response.with_result i ssid result "2.0") c.max_depth
      = .ok t) :
    reply_result c call ssid true result w =
      ((match (c.send_message t w.ext).1 with
        | .ok _ => .ok (.returned t)
        | .error e => .error (.fc e)),
       { w with ext := (c.send_message t w.ext).2 },
       [Event.send_message t]) := by
  rcases hs : (c.send_message t w.ext).1 with e | u <;>
    simp [reply_result, hid, run_bind, Eng.bind, Eng.deref, Eng.pure, Eng.lift, henc, run_pure,
      send_message_run, hs, push]

/-- The body of the inner `try`: dispatch, then the success reply. -/
theorem try_dispatch_run {σ : Type} (c : Env σ) (call : request) (ssid : String)
    (send_msg : Bool) (w : World σ) :
    try_dispatch c call ssid send_msg w =
      ((match ((local_call c call.method call.params >>= fun result =>
            reply_result c call ssid send_msg result) w).1 with
        | .ok d => .ok d
        | .error t => .ok (.fell_through
            (if call.id.isSome then some (c.capture t call.method call.params) else none))),
       ((local_call c call.method call.params >>= fun result =>
            reply_result c call ssid send_msg result) w).2.1,
       ((local_call c call.method call.params >>= fun result =>
            reply_result c call ssid send_msg result) w).2.2) := by
  unfold try_dispatch
  rcases h : (local_call c call.method call.params >>= fun result =>
            reply_result c call ssid send_msg result) w with ⟨r, w1, t1⟩
  cases r <;> simp [Eng.catch_fc, Eng.catch_all_rethrow, h, run_pure, Eng.pure]

/-- Lines 138-146 when the detail converts and the envelope serializes. -/
theorem reply_error_run {σ : Type} (c : Env σ) {call : request} {i : Nat} (ssid : String)
    (send_msg : Bool) (e : fc_exception) (w : World σ) {data : variant} {t : String}
    (hid : call.id = some i)
    (hdata : c.exception_to_variant e c.max_depth = .ok data)
    (henc : serialize_response c (response.with_error i ssid
      { code := 1, message := e.to_string, data := data } "2.0") = .ok t) :
    reply_error c call ssid send_msg e w =
      if send_msg then
        ((match (c.send_message t w.ext).1 with
          | .ok _ => .ok t
          | .error e1 => .error (.fc e1)),
         { w with ext := (c.send_message t w.ext).2 },
         [Event.send_message t])
      else (.ok t, w, []) := by
  cases send_msg
  · simp [reply_error, hid, run_bind, Eng.bind, Eng.deref, Eng.pure, Eng.lift, hdata, henc,
      run_pure, push]
  · rcases hs : (c.send_message t w.ext).1 with e1 | u <;>
      simp [reply_error, hid, run_bind, Eng.bind, Eng.deref, Eng.pure, Eng.lift, hdata, henc,
        run_pure, send_message_run, hs, push]

theorem fc_only_push {σ : Type} (c : Env σ) (send_msg : Bool) (reply : String) :
    (push c send_msg reply).raises_fc_only := by
  unfold push
  cases send_msg
  · exact fc_only_pure _
  · exact fc_only_send_message _ _

theorem fc_only_reply_error {σ : Type} (c : Env σ) {call : request} (ssid : String)
    (send_msg : Bool) (e : fc_exception) (hid : call.id.isSome = true) :
    (reply_error c call ssid send_msg e).raises_fc_only := by
  obtain ⟨i, hi⟩ := Option.isSome_iff_exists.mp hid
  unfold reply_error
  rw [hi]
  refine fc_only_bind (fc_only_pure i) (fun _ => fc_only_bind (fc_only_lift _)
    (fun _ => fc_only_bind (fc_only_lift _) (fun _ => fc_only_bind ?_ (fun _ => fc_only_pure _))))
  exact fc_only_push _ _ _


/-- The success reply never leaves `optexcept` set. -/
theorem reply_result_shape {σ : Type} (c : Env σ) (call : request) (ssid : String)
    (send_msg : Bool) (result : variant) (w : World σ) (d : dispatched)
    (h : (reply_result c call ssid send_msg result w).1 = .ok d) :
    ∀ e, d ≠ .fell_through (some e) := by
  intro e hd
  subst hd
  rcases hid : call.id with _ | i
  · rw [reply_result_notice c ssid send_msg result w hid] at h
    simp at h
  · rcases henc : c.response_to_string (response.with_result i ssid result "2.0") c.max_depth
      with e1 | t
    · rw [reply_result_encode_error c ssid send_msg result w hid henc] at h
      simp at h
    · cases send_msg
      · rw [reply_result_inline c ssid result w hid henc] at h
        simp at h
      · rw [reply_result_push c ssid result w hid henc] at h
        rcases hs : (c.send_message t w.ext).1 with e2 | u <;> rw [hs] at h <;> simp at h

/-- The dispatch block always ends normally, and it leaves `optexcept` set only for a
request with an id. -/
theorem try_dispatch_ok {σ : Type} (c : Env σ) (call : request) (ssid : String)
    (send_msg : Bool) (w : World σ) :
    ∃ d, (try_dispatch c call ssid send_msg w).1 = .ok d ∧
      ∀ e, d = .fell_through (some e) → call.id.isSome = true := by
  rw [try_dispatch_run, run_bind]
  rcases hcall : local_call c call.method call.params w with ⟨r, w1, tr⟩
  cases r with
  | error t =>
    rw [bind_error hcall]
    refine ⟨_, rfl, ?_⟩
    intro e he
    by_cases hid : call.id.isSome = true
    · exact hid
    · simp [hid] at he
  | ok v =>
    rw [bind_ok hcall]
    rcases hr : (reply_result c call ssid send_msg v w1).1 with t | d
    · refine ⟨_, rfl, ?_⟩
      intro e he
      by_cases hid : call.id.isSome = true
      · exact hid
      · simp [hid] at he
    · refine ⟨d, rfl, ?_⟩
      intro e he
      exact absurd he (reply_result_shape c call ssid send_msg v w1 d hr e)

theorem fc_only_handle_request {σ : Type} (c : Env σ) (call : request) (ssid : String)
    (send_msg : Bool) : (handle_request c call ssid send_msg).raises_fc_only := by
  intro w t h
  unfold handle_request at h
  rw [run_bind] at h
  obtain ⟨d, hd, hsome⟩ := try_dispatch_ok c call ssid send_msg w
  rcases htd : try_dispatch c call ssid send_msg w with ⟨r, w1, t1⟩
  rw [htd] at hd
  simp only at hd
  subst hd
  rw [bind_ok htd] at h
  simp only at h
  cases d with
  | returned reply => simp [run_pure] at h
  | fell_through o =>
    cases o with
    | none => simp [run_pure] at h
    | some e => exact fc_only_reply_error c ssid send_msg e (hsome e rfl) w1 t h

/-- A request without an id: whatever the dispatch does, nothing follows it. -/
theorem handle_request_notice {σ : Type} (c : Env σ) {call : request} (ssid : String)
    (send_msg : Bool) (w : World σ) (hid : call.id = none) :
    handle_request c call ssid send_msg w =
      (.ok "", (local_call c call.method call.params w).2.1,
        (local_call c call.method call.params w).2.2) := by
  unfold handle_request
  rw [run_bind]
  rcases hcall : local_call c call.method call.params w with ⟨r, w1, tr⟩
  have htd : try_dispatch c call ssid send_msg w = (.ok (.fell_through none), w1, tr) := by
    rw [try_dispatch_run, run_bind]
    cases r with
    | error t => rw [bind_error hcall]; simp [hid]
    | ok v => rw [bind_ok hcall, reply_result_notice c ssid send_msg v w1 hid]; simp
  rw [bind_ok htd]
  simp [run_pure]

/-- A request with an id whose dispatch succeeds and whose reply is accepted by the
transport. -/
theorem handle_request_success {σ : Type} (c : Env σ) {call : request} {i : Nat} (ssid : String)
    (send_msg : Bool) (w w1 : World σ) {v : variant} {tr : List Event} {t : String}
    (hid : call.id = some i)
    (hcall : local_call c call.method call.params w = (.ok v, w1, tr))
    (henc : c.response_to_string (response.with_result i ssid v "2.0") c.max_depth = .ok t)
    (hsend : send_msg = true → (c.send_message t w1.ext).1 = .ok ()) :
    handle_request c call ssid send_msg w =
      (.ok t,
       (if send_msg then { w1 with ext := (c.send_message t w1.ext).2 } else w1),
       tr ++ (if send_msg then [Event.send_message t] else [])) := by
  unfold handle_request
  rw [run_bind]
  cases send_msg with
  | false =>
    have htd : try_dispatch c call ssid false w = (.ok (.returned t), w1, tr) := by
      rw [try_dispatch_run, run_bind, bind_ok hcall, reply_result_inline c ssid v w1 hid henc]
      simp
    rw [bind_ok htd]
    simp [run_pure]
  | true =>
    have htd : try_dispatch c call ssid true w =
        (.ok (.returned t), { w1 with ext := (c.send_message t w1.ext).2 },
          tr ++ [Event.send_message t]) := by
      rw [try_dispatch_run, run_bind, bind_ok hcall, reply_result_push c ssid v w1 hid henc,
        hsend rfl]
    rw [bind_ok htd]
    simp [run_pure]

/-- A request with an id whose dispatch fails: the error reply is built from the
exception that FC_CAPTURE_AND_RETHROW lets out. -/
theorem handle_request_failure {σ : Type} (c : Env σ) {call : request} {i : Nat} (ssid : String)
    (send_msg : Bool) (w w1 : World σ) {thrown : Thrown} {tr : List Event}
    (hid : call.id = some i)
    (hcall : local_call c call.method call.params w = (.error thrown, w1, tr)) :
    handle_request c call ssid send_msg w =
      ((reply_error c call ssid send_msg (c.capture thrown call.method call.params) w1).1,
       (reply_error c call ssid send_msg (c.capture thrown call.method call.params) w1).2.1,
       tr ++ (reply_error c call ssid send_msg
         (c.capture thrown call.method call.params) w1).2.2) := by
  unfold handle_request
  rw [run_bind]
  have htd : try_dispatch c call ssid send_msg w =
      (.ok (.fell_through (some (c.capture thrown call.method call.params))), w1, tr) := by
    rw [try_dispatch_run, run_bind, bind_error hcall]
    simp [hid]
  rw [bind_ok htd]

/-! ## on_message after decoding -/

theorem on_message_decode_error {σ : Type} (c : Env σ) (message : String) (send_msg : Bool)
    (w : World σ) {e : fc_exception} (h : decode c message = .error e) :
    on_message c message send_msg w = (.ok e.to_detail_string, w, []) := by
  unfold decode at h
  unfold on_message
  rcases h1 : c.from_string message c.max_depth with e1 | var
  · rw [h1] at h
    simp only [Except.error.injEq] at h
    subst h
    simp [Eng.catch_fc, run_bind, Eng.bind, Eng.lift, h1, run_pure, Eng.pure]
  · rw [h1] at h
    simp only at h
    rcases h2 : get_object c var with e2 | obj
    · rw [h2] at h
      simp only [Except.error.injEq] at h
      subst h
      simp [Eng.catch_fc, run_bind, Eng.bind, Eng.lift, h1, h2, run_pure, Eng.pure]
    · rw [h2] at h
      simp only at h
      rcases h3 : read_ssid c obj with e3 | ssid
      · rw [h3] at h
        simp only [Except.error.injEq] at h
        subst h
        simp [Eng.catch_fc, run_bind, Eng.bind, Eng.lift, h1, h2, h3, run_pure, Eng.pure]
      · rw [h3] at h
        simp only at h
        by_cases hm : contains obj "method" = true
        · rw [if_pos hm] at h
          rcases h4 : c.as_request var c.max_depth with e4 | call
          · rw [h4] at h
            simp only [Except.error.injEq] at h
            subst h
            simp [Eng.catch_fc, run_bind, Eng.bind, Eng.lift, h1, h2, h3, h4, hm, run_pure,
              Eng.pure]
          · rw [h4] at h
            simp at h
        · rw [if_neg hm] at h
          rcases h4 : c.as_response var c.max_depth with e4 | reply
          · rw [h4] at h
            simp only [Except.error.injEq] at h
            subst h
            simp [Eng.catch_fc, run_bind, Eng.bind, Eng.lift, h1, h2, h3, h4, hm, run_pure,
              Eng.pure]
          · rw [h4] at h
            simp at h

theorem on_message_request {σ : Type} (c : Env σ) (message : String) (send_msg : Bool)
    (w : World σ) {ssid : String} {call : request}
    (h : decode c message = .ok (ssid, .inl call)) :
    on_message c message send_msg w =
      Eng.catch_fc (handle_request c call ssid send_msg) (fun e => pure e.to_detail_string) w := by
  unfold decode at h
  unfold on_message
  rcases h1 : c.from_string message c.max_depth with e1 | var
  · rw [h1] at h; simp at h
  · rw [h1] at h
    simp only at h
    rcases h2 : get_object c var with e2 | obj
    · rw [h2] at h; simp at h
    · rw [h2] at h
      simp only at h
      rcases h3 : read_ssid c obj with e3 | ssid1
      · rw [h3] at h; simp at h
      · rw [h3] at h
        simp only at h
        by_cases hm : contains obj "method" = true
        · rw [if_pos hm] at h
          rcases h4 : c.as_request var c.max_depth with e4 | call1
          · rw [h4] at h; simp at h
          · rw [h4] at h
            simp only [Except.ok.injEq, Prod.mk.injEq, Sum.inl.injEq] at h
            obtain ⟨rfl, rfl⟩ := h
            simp [Eng.catch_fc, run_bind, Eng.bind, Eng.lift, h1, h2, h3, h4, hm]
        · rw [if_neg hm] at h
          rcases h4 : c.as_response var c.max_depth with e4 | reply
          · rw [h4] at h; simp at h
          · rw [h4] at h; simp at h

theorem on_message_response {σ : Type} (c : Env σ) (message : String) (send_msg : Bool)
    (w : World σ) {ssid : String} {reply : response}
    (h : decode c message = .ok (ssid, .inr reply)) :
    on_message c message send_msg w =
      ((match (c.handle_reply reply w).1 with
        | .ok _ => .ok ""
        | .error e => .ok e.to_detail_string),
       (c.handle_reply reply w).2,
       [Event.handle_reply reply]) := by
  unfold decode at h
  unfold on_message
  rcases h1 : c.from_string message c.max_depth with e1 | var
  · rw [h1] at h; simp at h
  · rw [h1] at h
    simp only at h
    rcases h2 : get_object c var with e2 | obj
    · rw [h2] at h; simp at h
    · rw [h2] at h
      simp only at h
      rcases h3 : read_ssid c obj with e3 | ssid1
      · rw [h3] at h; simp at h
      · rw [h3] at h
        simp only at h
        by_cases hm : contains obj "method" = true
        · rw [if_pos hm] at h
          rcases h4 : c.as_request var c.max_depth with e4 | call1
          · rw [h4] at h; simp at h
          · rw [h4] at h; simp at h
        · rw [if_neg hm] at h
          rcases h4 : c.as_response var c.max_depth with e4 | reply1
          · rw [h4] at h; simp at h
          · rw [h4] at h
            simp only [Except.ok.injEq, Prod.mk.injEq, Sum.inr.injEq] at h
            obtain ⟨rfl, rfl⟩ := h
            rcases h5 : c.handle_reply reply1 w with ⟨r, w1⟩
            cases r <;>
              simp [Eng.catch_fc, run_bind, Eng.bind, Eng.lift, h1, h2, h3, h4, hm, handle_reply,
                Eng.emit, Eng.call_fc, h5, run_pure, Eng.pure]


/-! ## Decoding hypotheses, step by step -/

/-- The session tag is empty when the object has no `ssid` field, and the field read as a
string otherwise. -/
theorem read_ssid_of {σ : Type} (c : Env σ) (obj : List (String × variant)) (ssid : String)
    (h : (contains obj "ssid" = false ∧ ssid = "") ∨
      (contains obj "ssid" = true ∧ ∃ field, index c obj "ssid" = .ok field ∧
        c.as_string field = .ok ssid)) :
    read_ssid c obj = .ok ssid := by
  rcases h with ⟨h1, rfl⟩ | ⟨h1, field, h2, h3⟩
  · simp [read_ssid, h1]
  · simp [read_ssid, h1, h2, h3]

theorem decode_request {σ : Type} (c : Env σ) (message : String) {var : variant}
    {obj : List (String × variant)} {ssid : String} {call : request}
    (hparse : c.from_string message c.max_depth = .ok var)
    (hobj : get_object c var = .ok obj)
    (hssid : read_ssid c obj = .ok ssid)
    (hmethod : contains obj "method" = true)
    (hreq : c.as_request var c.max_depth = .ok call) :
    decode c message = .ok (ssid, .inl call) := by
  simp [decode, hparse, hobj, hssid, hmethod, hreq]

theorem decode_response {σ : Type} (c : Env σ) (message : String) {var : variant}
    {obj : List (String × variant)} {ssid : String} {reply : response}
    (hparse : c.from_string message c.max_depth = .ok var)
    (hobj : get_object c var = .ok obj)
    (hssid : read_ssid c obj = .ok ssid)
    (hmethod : contains obj "method" = false)
    (hresp : c.as_response var c.max_depth = .ok reply) :
    decode c message = .ok (ssid, .inr reply) := by
  simp [decode, hparse, hobj, hssid, hmethod, hresp]

theorem catch_fc_of_ok {σ α : Type} {body : Eng σ α} {handler : fc_exception → Eng σ α}
    {w w1 : World σ} {a : α} {t1 : List Event} (h : body w = (.ok a, w1, t1)) :
    Eng.catch_fc body handler w = (.ok a, w1, t1) := by
  simp [Eng.catch_fc, h]

/-! ## Inbound messages: the claims -/

/-- C1: an inbound message that decodes to an object with a `method` field and an id `i`,
and whose local dispatch succeeds with value `v`, makes on_message produce the
serialization `t` of the success Response Envelope with id `i`, with ssid the `ssid` field
of the request read as a string (empty when the request has no such field), with result
`v` and no error.  In inline mode `t` is returned and nothing is sent; in duplex mode `t`
is also the one text pushed to the transport (the transport accepting it). -/
theorem on_message_success_reply {σ : Type} (c : Env σ) (message : String) (send_msg : Bool)
    (w w1 : World σ) (var : variant) (obj : List (String × variant)) (ssid : String)
    (call : request) (i : Nat) (v : variant) (tr : List Event) (t : String)
    (hparse : c.from_string message c.max_depth = .ok var)
    (hobj : get_object c var = .ok obj)
    (hssid : (contains obj "ssid" = false ∧ ssid = "") ∨
      (contains obj "ssid" = true ∧ ∃ field, index c obj "ssid" = .ok field ∧
        c.as_string field = .ok ssid))
    (hmethod : contains obj "method" = true)
    (hreq : c.as_request var c.max_depth = .ok call)
    (hid : call.id = some i)
    (hcall : local_call c call.method call.params w = (.ok v, w1, tr))
    (henc : c.response_to_string
      { id := i, ssid := ssid, jsonrpc := "2.0", result := some v, error := none }
      c.max_depth = .ok t)
    (hsend : send_msg = true → (c.send_message t w1.ext).1 = .ok ()) :
    on_message c message send_msg w =
      (.ok t,
       (if send_msg then { w1 with ext := (c.send_message t w1.ext).2 } else w1),
       tr ++ (if send_msg then [Event.send_message t] else [])) := by
  rw [on_message_request c message send_msg w
    (decode_request c message hparse hobj (read_ssid_of c obj ssid hssid) hmethod hreq)]
  exact catch_fc_of_ok (handle_request_success c ssid send_msg w w1 hid hcall henc hsend)

/-- C2 (as amended): an inbound request with a `method` field and an id `i` whose local
dispatch fails makes on_message produce the serialization `t` of the error Response
Envelope with the request's id and ssid whose ErrorObject has the constant code 1, the
description (`to_string`) of the failure caught at the dispatch boundary as message, and
that failure's structured detail as data. -/
theorem on_message_error_reply {σ : Type} (c : Env σ) (message : String) (send_msg : Bool)
    (w w1 : World σ) (var : variant) (obj : List (String × variant)) (ssid : String)
    (call : request) (i : Nat) (thrown : Thrown) (tr : List Event) (data : variant)
    (t : String)
    (hparse : c.from_string message c.max_depth = .ok var)
    (hobj : get_object c var = .ok obj)
    (hssid : (contains obj "ssid" = false ∧ ssid = "") ∨
      (contains obj "ssid" = true ∧ ∃ field, index c obj "ssid" = .ok field ∧
        c.as_string field = .ok ssid))
    (hmethod : contains obj "method" = true)
    (hreq : c.as_request var c.max_depth = .ok call)
    (hid : call.id = some i)
    (hcall : local_call c call.method call.params w = (.error thrown, w1, tr))
    (hdata : c.exception_to_variant (c.capture thrown call.method call.params) c.max_depth
      = .ok data)
    (henc : serialize_response c
      { id := i, ssid := ssid, jsonrpc := "2.0", result := none,
        error := some { code := 1,
                        message := (c.capture thrown call.method call.params).to_string,
                        data := data } } = .ok t)
    (hsend : send_msg = true → (c.send_message t w1.ext).1 = .ok ()) :
    on_message c message send_msg w =
      (.ok t,
       (if send_msg then { w1 with ext := (c.send_message t w1.ext).2 } else w1),
       tr ++ (if send_msg then [Event.send_message t] else [])) := by
  rw [on_message_request c message send_msg w
    (decode_request c message hparse hobj (read_ssid_of c obj ssid hssid) hmethod hreq)]
  apply catch_fc_of_ok
  rw [handle_request_failure c ssid send_msg w w1 hid hcall,
    reply_error_run c ssid send_msg _ w1 hid hdata henc]
  cases send_msg with
  | false => simp
  | true => simp [hsend rfl]

/-- C3: an inbound request with a `method` field and no id makes on_message return the
empty string and send nothing over the transport, whatever the method name, whether the
local dispatch succeeds or fails, and in both delivery modes: after the dispatch nothing
else happens. -/
theorem on_message_notice_silent {σ : Type} (c : Env σ) (message : String) (send_msg : Bool)
    (w : World σ) (var : variant) (obj : List (String × variant)) (ssid : String)
    (call : request)
    (hparse : c.from_string message c.max_depth = .ok var)
    (hobj : get_object c var = .ok obj)
    (hssid : read_ssid c obj = .ok ssid)
    (hmethod : contains obj "method" = true)
    (hreq : c.as_request var c.max_depth = .ok call)
    (hid : call.id = none) :
    on_message c message send_msg w =
        (.ok "", (local_call c call.method call.params w).2.1,
          (local_call c call.method call.params w).2.2) ∧
      sent (on_message c message send_msg w).2.2 = [] := by
  have h : on_message c message send_msg w =
      (.ok "", (local_call c call.method call.params w).2.1,
        (local_call c call.method call.params w).2.2) := by
    rw [on_message_request c message send_msg w
      (decode_request c message hparse hobj hssid hmethod hreq)]
    exact catch_fc_of_ok (handle_request_notice c ssid send_msg w hid)
  refine ⟨h, ?_⟩
  rw [h]
  exact (quiet_local_call c call.method call.params w).1

/-- C4: an inbound message that decodes to an object with no `method` field and converts to
a Response Envelope is handed to handle_reply exactly once; the Dispatch Table is not
invoked and nothing is sent, for every state of the Pending-Call Registry; when
handle_reply does not fail, on_message returns the empty string. -/
theorem on_message_reply_fulfills {σ : Type} (c : Env σ) (message : String) (send_msg : Bool)
    (w : World σ) (var : variant) (obj : List (String × variant)) (ssid : String)
    (reply : response)
    (hparse : c.from_string message c.max_depth = .ok var)
    (hobj : get_object c var = .ok obj)
    (hssid : read_ssid c obj = .ok ssid)
    (hmethod : contains obj "method" = false)
    (hresp : c.as_response var c.max_depth = .ok reply) :
    (on_message c message send_msg w).2.2 = [Event.handle_reply reply] ∧
      replies_handled (on_message c message send_msg w).2.2 = [reply] ∧
      dispatches (on_message c message send_msg w).2.2 = [] ∧
      sent (on_message c message send_msg w).2.2 = [] ∧
      (on_message c message send_msg w).2.1 = (c.handle_reply reply w).2 ∧
      ((c.handle_reply reply w).1 = .ok () →
        (on_message c message send_msg w).1 = .ok "") := by
  rw [on_message_response c message send_msg w
    (decode_response c message hparse hobj hssid hmethod hresp)]
  refine ⟨rfl, rfl, rfl, rfl, rfl, ?_⟩
  intro h
  simp [h]

/-- C5: a message text whose decoding fails -- the text does not parse (invalid, or nested
deeper than the maximum depth), the top-level value is not an object, the session tag is
not a string, or the object does not convert to a request (when it has a `method` field)
or to a response (when it has none) -- makes on_message return the diagnostic string of
the failure without throwing; the world is unchanged and no action is performed: no
dispatch, no registry hand-over, no send. -/
theorem on_message_decode_failure {σ : Type} (c : Env σ) (message : String) (send_msg : Bool)
    (w : World σ) (e : fc_exception) (h : decode c message = .error e) :
    on_message c message send_msg w = (.ok e.to_detail_string, w, []) :=
  on_message_decode_error c message send_msg w h

/-- C6: for every message text, every delivery mode, every world and every behaviour of the
collaborators -- in particular whatever the dispatched handler returns or throws, an
`fc::exception` or not -- on_message completes normally and returns a string. -/
theorem on_message_never_throws {σ : Type} (c : Env σ) (message : String) (send_msg : Bool)
    (w : World σ) : ∃ s : String, (on_message c message send_msg w).1 = .ok s := by
  unfold on_message
  refine catch_fc_returns ?_ (fun e w1 => ⟨e.to_detail_string, rfl⟩) w
  refine fc_only_bind (fc_only_lift _) (fun var => fc_only_bind (fc_only_lift _)
    (fun obj => fc_only_bind (fc_only_lift _) (fun ssid => ?_)))
  split
  · exact fc_only_bind (fc_only_lift _) (fun call => fc_only_handle_request c call ssid send_msg)
  · exact fc_only_bind (fc_only_lift _) (fun reply => fc_only_bind (fc_only_handle_reply c reply)
      (fun _ => fc_only_pure _))


/-! ## Outbound operations, close and fallback: the claims -/

/-- C8: send_notice transmits exactly one message, the serialization `t` of the Request
Envelope with no id, method "notice" and params [callback_id, args]: its whole effect is
the one call `_connection.send_message( t )`.  The transport is left in the state that this
call produces, the result is the result of this call (a transmission failure is the only
failure surfaced), the trace is the single send (no start_remote_call, no wait), and the
rpc state, in particular the set of pending entries, is left as it was. -/
theorem send_notice_transmits_only {σ : Type} (c : Env σ) (callback_id : Nat) (args : variants)
    (w : World σ) (t : String)
    (hser : serialize_request c
      { id := none, method := "notice", params := [.uint64 callback_id, .array args] }
      = .ok t) :
    send_notice c callback_id args w =
        ((match (c.send_message t w.ext).1 with
          | .ok _ => .ok ()
          | .error e => .error (.fc e)),
         { rpc := w.rpc, ext := (c.send_message t w.ext).2 },
         [Event.send_message t]) ∧
      (send_notice c callback_id args w).2.2 = [Event.send_message t] ∧
      sent (send_notice c callback_id args w).2.2 = [t] ∧
      (send_notice c callback_id args w).2.1.ext = (c.send_message t w.ext).2 ∧
      (send_notice c callback_id args w).2.1.rpc = w.rpc ∧
      ((c.send_message t w.ext).1 = .ok () → (send_notice c callback_id args w).1 = .ok ()) := by
  have h : send_notice c callback_id args w = send_message c t w := by
    unfold send_notice
    rw [run_bind, bind_ok (lift_ok hser w)]
    simp
  rw [h, send_message_run]
  refine ⟨rfl, rfl, rfl, rfl, rfl, ?_⟩
  intro hs
  rw [hs]

theorem filter_map_closed (ids : List Nat) (id : Nat) (hmem : id ∈ ids) (hnd : ids.Nodup) :
    (ids.map (fun j => (j, outcome.connection_closed))).filter (fun d => d.1 = id) =
      [(id, outcome.connection_closed)] := by
  induction ids with
  | nil => simp at hmem
  | cons j js ih =>
    rw [List.nodup_cons] at hnd
    rcases List.mem_cons.mp hmem with rfl | hin
    · have hnot : ∀ k ∈ js, k ≠ id := fun k hk hkj => hnd.1 (hkj ▸ hk)
      have : (js.map (fun j => (j, outcome.connection_closed))).filter (fun d => d.1 = id)
          = [] := by
        rw [List.filter_eq_nil_iff]
        intro d hd
        obtain ⟨k, hk, rfl⟩ := List.mem_map.mp hd
        simpa using hnot k hk
      simp [List.filter_cons, this]
    · have hne : j ≠ id := fun h => hnd.1 (h ▸ hin)
      simp [List.filter_cons, hne, ih hin hnd.2]

/-- C9: when the transport signals close with K calls outstanding (one pending entry per
id), the close handler delivers a connection-closed failure to each of the K pending
entries exactly once, delivers nothing else, and leaves the registry empty. -/
theorem closed_handler_drains {σ : Type} (w : World σ) (hnd : w.rpc._awaiting.Nodup) :
    (closed_handler w).1 = .ok () ∧
      (closed_handler w).2.1.rpc._awaiting = [] ∧
      ∃ delivered_now : List (Nat × outcome),
        (closed_handler w).2.1.rpc.delivered = w.rpc.delivered ++ delivered_now ∧
        delivered_now.length = w.rpc._awaiting.length ∧
        (∀ d ∈ delivered_now, d.1 ∈ w.rpc._awaiting ∧ d.2 = outcome.connection_closed) ∧
        ∀ id ∈ w.rpc._awaiting,
          delivered_now.filter (fun d => d.1 = id) = [(id, outcome.connection_closed)] := by
  refine ⟨rfl, rfl, w.rpc._awaiting.map (fun j => (j, outcome.connection_closed)), rfl,
    by simp, ?_, ?_⟩
  · intro d hd
    obtain ⟨k, hk, rfl⟩ := List.mem_map.mp hd
    exact ⟨hk, rfl⟩
  · intro id hid
    exact filter_map_closed _ id hid hnd

theorem receive_call_run {σ : Type} (c : Env σ) (api_id : Nat) (method_name : String)
    (args : variants) (w : World σ) :
    receive_call c api_id method_name args w =
      ((c.receive_call api_id method_name args w).1,
       (c.receive_call api_id method_name args w).2,
       [Event.receive_call api_id method_name args]) := by
  simp [receive_call, run_bind, Eng.bind, Eng.emit, Eng.call_any]

/-- C10: a method name other than "call", "notice" and "callback" is dispatched to the
fallback: the dispatch performs exactly one `receive_call` on target id 0 with the
original method name and the original params, and its result is the result of that
call. -/
theorem local_call_fallback {σ : Type} (c : Env σ) (method_name : String) (params : variants)
    (w : World σ) (h1 : method_name ≠ "call") (h2 : method_name ≠ "notice")
    (h3 : method_name ≠ "callback") :
    (rpc_methods c)._methods.lookup method_name = none ∧
      local_call c method_name params w =
        ((c.receive_call 0 method_name params w).1,
         (c.receive_call 0 method_name params w).2,
         [Event.local_call method_name params, Event.receive_call 0 method_name params]) := by
  constructor
  · have e1 : (method_name == "call") = false := by simp [h1]
    have e2 : (method_name == "notice") = false := by simp [h2]
    have e3 : (method_name == "callback") = false := by simp [h3]
    simp [rpc_methods_eq, List.lookup, e1, e2, e3]
  · rw [local_call_eq]
    simp [run_bind, Eng.bind, Eng.emit, h1, h2, h3, unhandled, receive_call_run]


/-! ## The claims at the concrete deployment -/

theorem on_message_success_reply_witness :
    on_message demo.env demo.get_info_text true demo.w0 =
      (.ok demo.get_info_reply,
       { demo.w0 with ext := [demo.get_info_reply] },
       [Event.local_call "get_info" [], Event.receive_call 0 "get_info" [],
        Event.send_message demo.get_info_reply]) :=
  on_message_success_reply demo.env demo.get_info_text true demo.w0 demo.w0
    (.object [("id", .uint64 1), ("ssid", .string "s1"), ("method", .string "get_info"),
      ("params", .array [])])
    [("id", .uint64 1), ("ssid", .string "s1"), ("method", .string "get_info"),
      ("params", .array [])]
    "s1" { id := some 1, method := "get_info", params := [] } 1
    (.object [("version", .string "1.0")])
    [Event.local_call "get_info" [], Event.receive_call 0 "get_info" []]
    demo.get_info_reply rfl rfl (Or.inr ⟨rfl, .string "s1", rfl, rfl⟩) rfl rfl rfl rfl rfl
    (fun _ => rfl)

/-- C2 as stated fails: the dispatch of "fail" fails with an exception whose classification
code is 10, and on_message returns an error envelope whose code is 1, not the envelope
carrying the classification code. -/
theorem on_message_error_code_counterexample :
    (local_call demo.env "fail" [] demo.w0).1 = .error (.fc demo.failure) ∧
      demo.failure.code = 10 ∧
      (on_message demo.env demo.fail_text false demo.w0).1 = .ok demo.fail_reply ∧
      serialize_response demo.env
        { id := 2, ssid := "", jsonrpc := "2.0", result := none,
          error := some { code := demo.failure.code, message := demo.failure.to_string,
                          data := .object [("code", .int64 10),
                            ("name", .string demo.failure.to_string)] } }
        = .ok demo.fail_reply_with_classification ∧
      demo.fail_reply ≠ demo.fail_reply_with_classification :=
  ⟨rfl, rfl, rfl, rfl, by decide⟩

theorem on_message_error_reply_witness :
    on_message demo.env demo.fail_text true demo.w0 =
      (.ok demo.fail_reply,
       { demo.w0 with ext := [demo.fail_reply] },
       [Event.local_call "fail" [], Event.receive_call 0 "fail" [],
        Event.send_message demo.fail_reply]) :=
  on_message_error_reply demo.env demo.fail_text true demo.w0 demo.w0
    (.object [("id", .uint64 2), ("method", .string "fail"), ("params", .array [])])
    [("id", .uint64 2), ("method", .string "fail"), ("params", .array [])]
    "" { id := some 2, method := "fail", params := [] } 2 (.fc demo.failure)
    [Event.local_call "fail" [], Event.receive_call 0 "fail" []]
    (.object [("code", .int64 10), ("name", .string demo.failure.to_string)])
    demo.fail_reply rfl rfl (Or.inl ⟨rfl, rfl⟩) rfl rfl rfl rfl rfl rfl (fun _ => rfl)

theorem on_message_notice_silent_witness :
    on_message demo.env demo.notice_text true demo.w0 =
        (.ok "", demo.w0,
          [Event.local_call "callback" [.uint64 42, .array [.string "x"]],
           Event.receive_callback 42 [.string "x"]]) ∧
      sent (on_message demo.env demo.notice_text true demo.w0).2.2 = [] :=
  on_message_notice_silent demo.env demo.notice_text true demo.w0
    (.object [("method", .string "callback"),
      ("params", .array [.uint64 42, .array [.string "x"]])])
    [("method", .string "callback"), ("params", .array [.uint64 42, .array [.string "x"]])]
    "" { id := none, method := "callback", params := [.uint64 42, .array [.string "x"]] }
    rfl rfl rfl rfl rfl rfl

theorem on_message_reply_fulfills_witness :
    (on_message demo.env demo.reply_text true demo.w0).2.2 =
        [Event.handle_reply
          { id := 7, ssid := "", jsonrpc := "2.0", result := some (.boolean true),
            error := none }] ∧
      (on_message demo.env demo.reply_text true demo.w0).2.1.rpc._awaiting = [5] ∧
      (on_message demo.env demo.reply_text true demo.w0).1 = .ok "" :=
  have h := on_message_reply_fulfills demo.env demo.reply_text true demo.w0
    (.object [("id", .uint64 7), ("result", .boolean true)])
    [("id", .uint64 7), ("result", .boolean true)] ""
    { id := 7, ssid := "", jsonrpc := "2.0", result := some (.boolean true), error := none }
    rfl rfl rfl rfl rfl
  ⟨h.1, congrArg (fun x => x.rpc._awaiting) h.2.2.2.2.1, h.2.2.2.2.2 rfl⟩

theorem on_message_decode_failure_witness :
    on_message demo.env "not json" true demo.w0 =
      (.ok "4 parse_error_exception: unexpected input", demo.w0, []) :=
  on_message_decode_failure demo.env "not json" true demo.w0 demo.parse_error rfl

theorem send_notice_transmits_only_witness :
    send_notice demo.env 42 [.string "x"] demo.w0 =
        (.ok (), { rpc := demo.w0.rpc, ext := [demo.notice_out_text] },
         [Event.send_message demo.notice_out_text]) ∧
      (send_notice demo.env 42 [.string "x"] demo.w0).2.1.ext = [demo.notice_out_text] ∧
      (send_notice demo.env 42 [.string "x"] demo.w0).2.1.rpc = demo.w0.rpc ∧
      (send_notice demo.env 42 [.string "x"] demo.w0).1 = .ok () :=
  have h := send_notice_transmits_only demo.env 42 [.string "x"] demo.w0 demo.notice_out_text rfl
  ⟨h.1, h.2.2.2.1, h.2.2.2.2.1, h.2.2.2.2.2 rfl⟩

theorem closed_handler_drains_witness :
    (closed_handler demo.w0).2.1.rpc._awaiting = [] ∧
      ∃ delivered_now : List (Nat × outcome),
        (closed_handler demo.w0).2.1.rpc.delivered = demo.w0.rpc.delivered ++ delivered_now ∧
        delivered_now.length = 2 ∧
        (∀ d ∈ delivered_now, d.1 ∈ [5, 7] ∧ d.2 = outcome.connection_closed) ∧
        ∀ id ∈ [5, 7],
          delivered_now.filter (fun d => d.1 = id) = [(id, outcome.connection_closed)] :=
  (closed_handler_drains demo.w0 (by decide)).2

theorem local_call_fallback_witness :
    local_call demo.env "get_info" [] demo.w0 =
      (.ok (.object [("version", .string "1.0")]), demo.w0,
       [Event.local_call "get_info" [], Event.receive_call 0 "get_info" []]) :=
  (local_call_fallback demo.env "get_info" [] demo.w0 (by decide) (by decide) (by decide)).2



/-! ## The built-in handlers, run -/

theorem receive_callback_run {σ : Type} (c : Env σ) (callback_id : Nat) (args : variants)
    (w : World σ) :
    receive_callback c callback_id args w =
      ((c.receive_callback callback_id args w).1, (c.receive_callback callback_id args w).2,
       [Event.receive_callback callback_id args]) := by
  simp [receive_callback, run_bind, Eng.bind, Eng.emit, Eng.call_any]

theorem fc_assert_pass {σ : Type} (c : Env σ) {b : Bool} (text : String) (w : World σ)
    (h : b = true) : fc_assert c b text w = (.ok (), w, []) := by
  subst h; rfl

theorem fc_assert_fail {σ : Type} (c : Env σ) {b : Bool} (text : String) (w : World σ)
    (h : b = false) : fc_assert c b text w = (.error (.fc (c.assert_exception text)), w, []) := by
  subst h; rfl

/-- The guard of the "call" handler holds exactly for three params with an array last. -/
theorem call_guard_iff (args : variants) :
    (args.length == 3 && (args.getD 2 .null).is_array) = true ↔
      ∃ x y a, args = [x, y, variant.array a] := by
  constructor
  · intro h
    simp only [Bool.and_eq_true, beq_iff_eq] at h
    obtain ⟨hlen, harr⟩ := h
    match args, hlen with
    | [x, y, z], _ =>
      cases z <;> simp [variant.is_array] at harr
      exact ⟨x, y, _, rfl⟩
  · rintro ⟨x, y, a, rfl⟩
    rfl

/-- The guard of the "notice" and "callback" handlers holds exactly for two params with an
array last. -/
theorem callback_guard_iff (args : variants) :
    (args.length == 2 && (args.getD 1 .null).is_array) = true ↔
      ∃ x a, args = [x, variant.array a] := by
  constructor
  · intro h
    simp only [Bool.and_eq_true, beq_iff_eq] at h
    obtain ⟨hlen, harr⟩ := h
    match args, hlen with
    | [x, z], _ =>
      cases z <;> simp [variant.is_array] at harr
      exact ⟨x, _, rfl⟩
  · rintro ⟨x, a, rfl⟩
    rfl

theorem call_handler_rejects {σ : Type} (c : Env σ) (args : variants) (w : World σ)
    (h : ¬ ∃ x y a, args = [x, y, variant.array a]) :
    call_handler c args w =
      (.error (.fc (c.assert_exception "args.size() == 3 && args[2].is_array()")), w, []) := by
  have hb : (args.length == 3 && (args.getD 2 .null).is_array) = false := by
    rw [← Bool.not_eq_true]
    exact fun hc => h ((call_guard_iff args).mp hc)
  unfold call_handler
  rw [run_bind, bind_error (fc_assert_fail c _ w hb)]

theorem notice_handler_rejects {σ : Type} (c : Env σ) (args : variants) (w : World σ)
    (h : ¬ ∃ x a, args = [x, variant.array a]) :
    notice_handler c args w =
      (.error (.fc (c.assert_exception "args.size() == 2 && args[1].is_array()")), w, []) := by
  have hb : (args.length == 2 && (args.getD 1 .null).is_array) = false := by
    rw [← Bool.not_eq_true]
    exact fun hc => h ((callback_guard_iff args).mp hc)
  unfold notice_handler
  rw [run_bind, bind_error (fc_assert_fail c _ w hb)]

theorem callback_handler_rejects {σ : Type} (c : Env σ) (args : variants) (w : World σ)
    (h : ¬ ∃ x a, args = [x, variant.array a]) :
    callback_handler c args w =
      (.error (.fc (c.assert_exception "args.size() == 2 && args[1].is_array()")), w, []) := by
  have hb : (args.length == 2 && (args.getD 1 .null).is_array) = false := by
    rw [← Bool.not_eq_true]
    exact fun hc => h ((callback_guard_iff args).mp hc)
  unfold callback_handler
  rw [run_bind, bind_error (fc_assert_fail c _ w hb)]

/-- The "call" handler on a target given as a number. -/
theorem call_handler_numeric {σ : Type} (c : Env σ) (target : variant) (name : String)
    (a : variants) (w : World σ) {n : Nat}
    (hnum : target.is_string = false)
    (hn : c.as_uint64 target = .ok n)
    (hname : c.as_string (.string name) = .ok name) :
    call_handler c [target, .string name, .array a] w =
      ((c.receive_call (to_api_id c n) name a w).1,
       (c.receive_call (to_api_id c n) name a w).2,
       [Event.receive_call (to_api_id c n) name a]) := by
  have hres : resolve_api_id c target w = (.ok (to_api_id c n), w, []) := by
    simp [resolve_api_id, hnum, run_bind, Eng.bind, Eng.lift, hn, run_pure, Eng.pure]
  have hb : ([target, .string name, .array a].length == 3 &&
      ([target, .string name, .array a].getD 2 .null).is_array) = true := rfl
  unfold call_handler
  rw [run_bind, bind_ok (fc_assert_pass c _ w hb)]
  simp only [run_bind, List.getD_cons_zero, List.getD_cons_succ]
  rw [bind_ok hres]
  simp only [run_bind]
  rw [bind_ok (lift_ok hname w)]
  simp only [run_bind]
  rw [bind_ok (lift_ok (rfl : get_array c (.array a) = .ok a) w)]
  simp [receive_call_run]

/-- The "call" handler on a target given by name. -/
theorem call_handler_named {σ : Type} (c : Env σ) (target : variant) (name : String)
    (a : variants) (w w1 : World σ) {target_name : String} {subresult : variant} {n : Nat}
    (hstr : target.is_string = true)
    (htarget : c.as_string target = .ok target_name)
    (hresolve : c.receive_call 1 target_name [] w = (.ok subresult, w1))
    (hn : c.as_uint64 subresult = .ok n)
    (hname : c.as_string (.string name) = .ok name) :
    call_handler c [target, .string name, .array a] w =
      ((c.receive_call (to_api_id c n) name a w1).1,
       (c.receive_call (to_api_id c n) name a w1).2,
       [Event.receive_call 1 target_name [], Event.receive_call (to_api_id c n) name a]) := by
  have hres : resolve_api_id c target w =
      (.ok (to_api_id c n), w1, [Event.receive_call 1 target_name []]) := by
    simp [resolve_api_id, hstr, run_bind, Eng.bind, Eng.lift, htarget, receive_call_run,
      hresolve, hn, run_pure, Eng.pure]
  have hb : ([target, .string name, .array a].length == 3 &&
      ([target, .string name, .array a].getD 2 .null).is_array) = true := rfl
  unfold call_handler
  rw [run_bind, bind_ok (fc_assert_pass c _ w hb)]
  simp only [run_bind, List.getD_cons_zero, List.getD_cons_succ]
  rw [bind_ok hres]
  simp only [run_bind]
  rw [bind_ok (lift_ok hname w1)]
  simp only [run_bind]
  rw [bind_ok (lift_ok (rfl : get_array c (.array a) = .ok a) w1)]
  simp [receive_call_run]

/-- The "callback" handler: the callback runs and its value is dropped. -/
theorem callback_handler_run {σ : Type} (c : Env σ) (callback : variant) (a : variants)
    (w : World σ) {n : Nat} (hn : c.as_uint64 callback = .ok n) :
    callback_handler c [callback, .array a] w =
      ((match (c.receive_callback n a w).1 with
        | .ok _ => .ok variant.null
        | .error t => .error t),
       (c.receive_callback n a w).2,
       [Event.receive_callback n a]) := by
  have hb : ([callback, .array a].length == 2 &&
      ([callback, .array a].getD 1 .null).is_array) = true := rfl
  unfold callback_handler
  rw [run_bind, bind_ok (fc_assert_pass c _ w hb)]
  simp only [run_bind, List.getD_cons_zero, List.getD_cons_succ]
  rw [bind_ok (lift_ok hn w)]
  simp only [run_bind]
  rw [bind_ok (lift_ok (rfl : get_array c (.array a) = .ok a) w)]
  rcases hr : (c.receive_callback n a w).1 with t | v <;>
    simp [run_bind, receive_callback_run, Eng.bind, hr, run_pure, Eng.pure]

/-- Dispatch of a registered name: the dispatch event, then the handler. -/
theorem local_call_registered {σ : Type} (c : Env σ) (method_name : String) (args : variants)
    (w : World σ) (handler : variants → Eng σ variant)
    (h : (if method_name = "call" then call_handler c args
        else if method_name = "notice" then notice_handler c args
        else if method_name = "callback" then callback_handler c args
        else unhandled c method_name args) = handler args) :
    local_call c method_name args w =
      ((handler args w).1, (handler args w).2.1,
       Event.local_call method_name args :: (handler args w).2.2) := by
  rw [local_call_eq, run_bind, h]
  simp [Eng.bind, Eng.emit]


/-! ## The call convention: the claims -/

/-- C11: an inbound request with method "call" and params [t, m, a], with t a numeric
target id, m a string and a an array, is dispatched to exactly one `receive_call` of the
method m with arguments a on the target t (converted to `api_id_type`, which leaves a
target id in range as it is), and the dispatch result is the result of that call.  When
the call returns a value and the request has an id, on_message emits the success Response
Envelope with that id, the request's ssid and that value as result: for the text of
`call( 0, "get_info", [] )` with id 1 and a handler returning the version object, the
response with id 1, ssid "" and the version object as result. -/
theorem call_request_routes_to_target {σ : Type} (c : Env σ) (message : String)
    (send_msg : Bool) (w : World σ) (var : variant) (obj : List (String × variant))
    (ssid : String) (call : request) (i : Nat) (target : variant) (n : Nat) (name : String)
    (a : variants)
    (hparse : c.from_string message c.max_depth = .ok var)
    (hobj : get_object c var = .ok obj)
    (hssid : read_ssid c obj = .ok ssid)
    (hmethod : contains obj "method" = true)
    (hreq : c.as_request var c.max_depth = .ok call)
    (hid : call.id = some i)
    (hcall : call.method = "call")
    (hparams : call.params = [target, .string name, .array a])
    (hnum : target.is_string = false)
    (hn : c.as_uint64 target = .ok n)
    (hname : c.as_string (.string name) = .ok name) :
    (n < 2 ^ c.api_id_bits → to_api_id c n = n) ∧
      local_call c call.method call.params w =
        ((c.receive_call (to_api_id c n) name a w).1,
         (c.receive_call (to_api_id c n) name a w).2,
         [Event.local_call "call" [target, .string name, .array a],
          Event.receive_call (to_api_id c n) name a]) ∧
      ∀ (v : variant) (w1 : World σ) (t : String),
        c.receive_call (to_api_id c n) name a w = (.ok v, w1) →
        c.response_to_string
          { id := i, ssid := ssid, jsonrpc := "2.0", result := some v, error := none }
          c.max_depth = .ok t →
        (send_msg = true → (c.send_message t w1.ext).1 = .ok ()) →
        on_message c message send_msg w =
          (.ok t,
           (if send_msg then { w1 with ext := (c.send_message t w1.ext).2 } else w1),
           [Event.local_call "call" [target, .string name, .array a],
            Event.receive_call (to_api_id c n) name a] ++
             (if send_msg then [Event.send_message t] else [])) := by
  have hlocal : local_call c call.method call.params w =
      ((c.receive_call (to_api_id c n) name a w).1,
       (c.receive_call (to_api_id c n) name a w).2,
       [Event.local_call "call" [target, .string name, .array a],
        Event.receive_call (to_api_id c n) name a]) := by
    rw [hcall, hparams, local_call_registered c "call" _ w (call_handler c) (if_pos rfl),
      call_handler_numeric c target name a w hnum hn hname]
  refine ⟨fun hlt => Nat.mod_eq_of_lt hlt, hlocal, ?_⟩
  intro v w1 t hrecv henc hsend
  rw [hrecv] at hlocal
  rw [on_message_request c message send_msg w
    (decode_request c message hparse hobj hssid hmethod hreq)]
  exact catch_fc_of_ok (handle_request_success c ssid send_msg w w1 hid hlocal henc hsend)

/-- C12 (as amended): an inbound request with method "callback", an id and params [cb, a]
with a an array is dispatched to exactly one `receive_callback` of the callback cb with
arguments a; when the callback returns normally, the success Response Envelope carries the
request's id and ssid and the null value as result: the value the callback returned is
discarded. -/
theorem callback_request_replies_null {σ : Type} (c : Env σ) (message : String)
    (send_msg : Bool) (w w1 : World σ) (var : variant) (obj : List (String × variant))
    (ssid : String) (call : request) (i : Nat) (callback : variant) (n : Nat)
    (a : variants) (v : variant) (t : String)
    (hparse : c.from_string message c.max_depth = .ok var)
    (hobj : get_object c var = .ok obj)
    (hssid : read_ssid c obj = .ok ssid)
    (hmethod : contains obj "method" = true)
    (hreq : c.as_request var c.max_depth = .ok call)
    (hid : call.id = some i)
    (hcall : call.method = "callback")
    (hparams : call.params = [callback, .array a])
    (hn : c.as_uint64 callback = .ok n)
    (hrecv : c.receive_callback n a w = (.ok v, w1))
    (henc : c.response_to_string
      { id := i, ssid := ssid, jsonrpc := "2.0", result := some .null, error := none }
      c.max_depth = .ok t)
    (hsend : send_msg = true → (c.send_message t w1.ext).1 = .ok ()) :
    local_call c call.method call.params w =
        (.ok .null, w1,
         [Event.local_call "callback" [callback, .array a], Event.receive_callback n a]) ∧
      on_message c message send_msg w =
        (.ok t,
         (if send_msg then { w1 with ext := (c.send_message t w1.ext).2 } else w1),
         [Event.local_call "callback" [callback, .array a], Event.receive_callback n a] ++
           (if send_msg then [Event.send_message t] else [])) := by
  have hlocal : local_call c call.method call.params w =
      (.ok .null, w1,
       [Event.local_call "callback" [callback, .array a], Event.receive_callback n a]) := by
    rw [hcall, hparams, local_call_registered c "callback" _ w (callback_handler c)
      (by rw [if_neg (by decide), if_neg (by decide), if_pos rfl]),
      callback_handler_run c callback a w hn, hrecv]
  refine ⟨hlocal, ?_⟩
  rw [on_message_request c message send_msg w
    (decode_request c message hparse hobj hssid hmethod hreq)]
  exact catch_fc_of_ok (handle_request_success c ssid send_msg w w1 hid hlocal henc hsend)

/-- C13 (as amended): for a request with method "call" and params [s, m, a] where s is a
string, the handler first resolves s by one `receive_call` of the method named s with no
arguments on target id 1, and then returns the result of the local method m with arguments
a on the target whose id is the unsigned integer that resolution returned (converted to
`api_id_type`). -/
theorem call_resolves_name_on_api_one {σ : Type} (c : Env σ) (target : variant)
    (name : String) (a : variants) (w w1 : World σ) (target_name : String)
    (subresult : variant) (n : Nat)
    (hstr : target.is_string = true)
    (htarget : c.as_string target = .ok target_name)
    (hresolve : c.receive_call 1 target_name [] w = (.ok subresult, w1))
    (hn : c.as_uint64 subresult = .ok n)
    (hname : c.as_string (.string name) = .ok name) :
    local_call c "call" [target, .string name, .array a] w =
      ((c.receive_call (to_api_id c n) name a w1).1,
       (c.receive_call (to_api_id c n) name a w1).2,
       [Event.local_call "call" [target, .string name, .array a],
        Event.receive_call 1 target_name [],
        Event.receive_call (to_api_id c n) name a]) := by
  rw [local_call_registered c "call" _ w (call_handler c) (if_pos rfl),
    call_handler_named c target name a w w1 hstr htarget hresolve hn hname]

/-- C17: the built-in handlers reject malformed params before invoking any local method.
"call" with params that are not three elements with an array last, and "notice" and
"callback" with params that are not two elements with an array last, fail with the
exception of the failed FC_ASSERT; the dispatch performs no `receive_call`,
`receive_notice` or `receive_callback` and leaves the world as it was; and for a request
with an id on_message produces the error Response Envelope built from that exception
(returned, and in duplex mode pushed to the peer). -/
theorem builtin_handlers_reject_malformed {σ : Type} (c : Env σ) (method_name : String)
    (args : variants) (w : World σ)
    (hbad : (method_name = "call" ∧ ¬ ∃ x y a, args = [x, y, variant.array a]) ∨
      ((method_name = "notice" ∨ method_name = "callback") ∧
        ¬ ∃ x a, args = [x, variant.array a])) :
    local_call c method_name args w =
        (.error (.fc (c.assert_exception (guard_text method_name))), w,
          [Event.local_call method_name args]) ∧
      ∀ (message : String) (send_msg : Bool) (var : variant) (obj : List (String × variant))
        (ssid : String) (call : request) (i : Nat) (data : variant) (t : String),
        c.from_string message c.max_depth = .ok var →
        get_object c var = .ok obj →
        read_ssid c obj = .ok ssid →
        contains obj "method" = true →
        c.as_request var c.max_depth = .ok call →
        call.id = some i → call.method = method_name → call.params = args →
        c.exception_to_variant
          (c.capture (.fc (c.assert_exception (guard_text method_name))) method_name args)
          c.max_depth = .ok data →
        serialize_response c
          { id := i, ssid := ssid, jsonrpc := "2.0", result := none,
            error := some
              { code := 1,
                message :=
                  (c.capture (.fc (c.assert_exception (guard_text method_name)))
                    method_name args).to_string,
                data := data } } = .ok t →
        (send_msg = true → (c.send_message t w.ext).1 = .ok ()) →
        on_message c message send_msg w =
          (.ok t,
           (if send_msg then { w with ext := (c.send_message t w.ext).2 } else w),
           Event.local_call method_name args ::
             (if send_msg then [Event.send_message t] else [])) := by
  have hlocal : local_call c method_name args w =
      (.error (.fc (c.assert_exception (guard_text method_name))), w,
        [Event.local_call method_name args]) := by
    rcases hbad with ⟨rfl, h⟩ | ⟨rfl | rfl, h⟩
    · rw [local_call_registered c "call" _ w (call_handler c) (if_pos rfl),
        call_handler_rejects c args w h]
      rfl
    · rw [local_call_registered c "notice" _ w (notice_handler c)
        (by rw [if_neg (by decide), if_pos rfl]), notice_handler_rejects c args w h]
      rfl
    · rw [local_call_registered c "callback" _ w (callback_handler c)
        (by rw [if_neg (by decide), if_neg (by decide), if_pos rfl]),
        callback_handler_rejects c args w h]
      rfl
  refine ⟨hlocal, ?_⟩
  intro message send_msg var obj ssid call i data t hparse hobj hssid hmethod hreq hid hm hp
    hdata henc hsend
  subst hm hp
  rw [on_message_request c message send_msg w
    (decode_request c message hparse hobj hssid hmethod hreq)]
  apply catch_fc_of_ok
  rw [handle_request_failure c ssid send_msg w w hid hlocal,
    reply_error_run c ssid send_msg _ w hid hdata henc]
  cases send_msg with
  | false => simp
  | true => simp [hsend rfl]


/-! ## Code that does not dispatch -/

theorem no_dispatch_pure {σ α : Type} (a : α) : (pure a : Eng σ α).no_dispatch := by
  intro w; simp [run_pure, dispatches]

theorem no_dispatch_throw {σ α : Type} (t : Thrown) : (Eng.throw t : Eng σ α).no_dispatch := by
  intro w; simp [Eng.throw, dispatches]

theorem no_dispatch_lift {σ α : Type} (r : Except fc_exception α) :
    (Eng.lift r : Eng σ α).no_dispatch := by
  intro w; cases r <;> simp [Eng.lift, dispatches]

theorem no_dispatch_bind {σ α β : Type} {m : Eng σ α} {f : α → Eng σ β} (hm : m.no_dispatch)
    (hf : ∀ a, (f a).no_dispatch) : (m >>= f).no_dispatch := by
  intro w
  rw [run_bind]
  rcases h : m w with ⟨r, w1, t1⟩
  have h1 := hm w
  rw [h] at h1
  cases r with
  | error e => rw [bind_error h]; exact h1
  | ok a =>
    rw [bind_ok h]
    have h2 := hf a w1
    simp only [dispatches_append]
    simp_all

theorem no_dispatch_fc_assert {σ : Type} (c : Env σ) (b : Bool) (s : String) :
    (fc_assert c b s).no_dispatch := by
  unfold fc_assert
  cases b
  · exact no_dispatch_throw _
  · exact no_dispatch_pure _

theorem no_dispatch_receive_call {σ : Type} (c : Env σ) (n : Nat) (m : String) (a : variants) :
    (receive_call c n m a).no_dispatch := by
  intro w; simp [receive_call_run, dispatches]

theorem no_dispatch_receive_notice {σ : Type} (c : Env σ) (n : Nat) (a : variants) :
    (receive_notice c n a).no_dispatch := by
  intro w; simp [receive_notice, run_bind, Eng.bind, Eng.emit, Eng.call_any, dispatches]

theorem no_dispatch_receive_callback {σ : Type} (c : Env σ) (n : Nat) (a : variants) :
    (receive_callback c n a).no_dispatch := by
  intro w; simp [receive_callback_run, dispatches]

theorem no_dispatch_send_message {σ : Type} (c : Env σ) (text : String) :
    (send_message c text).no_dispatch := by
  intro w; rw [send_message_run]; rfl

theorem no_dispatch_push {σ : Type} (c : Env σ) (send_msg : Bool) (reply : String) :
    (push c send_msg reply).no_dispatch := by
  unfold push
  cases send_msg
  · exact no_dispatch_pure _
  · exact no_dispatch_send_message _ _

theorem no_dispatch_deref {σ α : Type} (opt : Option α) :
    (Eng.deref opt : Eng σ α).no_dispatch := by
  intro w; cases opt <;> simp [Eng.deref, Eng.pure, Eng.throw, dispatches]

theorem no_dispatch_resolve_api_id {σ : Type} (c : Env σ) (target : variant) :
    (resolve_api_id c target).no_dispatch := by
  unfold resolve_api_id
  split
  · exact no_dispatch_bind (no_dispatch_lift _) (fun _ => no_dispatch_bind
      (no_dispatch_receive_call _ _ _ _)
      (fun _ => no_dispatch_bind (no_dispatch_lift _) (fun _ => no_dispatch_pure _)))
  · exact no_dispatch_bind (no_dispatch_lift _) (fun _ => no_dispatch_pure _)

theorem no_dispatch_call_handler {σ : Type} (c : Env σ) (args : variants) :
    (call_handler c args).no_dispatch := by
  unfold call_handler
  exact no_dispatch_bind (no_dispatch_fc_assert _ _ _) (fun _ => no_dispatch_bind
    (no_dispatch_resolve_api_id _ _) (fun _ => no_dispatch_bind (no_dispatch_lift _)
      (fun _ => no_dispatch_bind (no_dispatch_lift _)
        (fun _ => no_dispatch_receive_call _ _ _ _))))

theorem no_dispatch_notice_handler {σ : Type} (c : Env σ) (args : variants) :
    (notice_handler c args).no_dispatch := by
  unfold notice_handler
  exact no_dispatch_bind (no_dispatch_fc_assert _ _ _) (fun _ => no_dispatch_bind
    (no_dispatch_lift _) (fun _ => no_dispatch_bind (no_dispatch_lift _)
      (fun _ => no_dispatch_bind (no_dispatch_receive_notice _ _ _)
        (fun _ => no_dispatch_pure _))))

theorem no_dispatch_callback_handler {σ : Type} (c : Env σ) (args : variants) :
    (callback_handler c args).no_dispatch := by
  unfold callback_handler
  exact no_dispatch_bind (no_dispatch_fc_assert _ _ _) (fun _ => no_dispatch_bind
    (no_dispatch_lift _) (fun _ => no_dispatch_bind (no_dispatch_lift _)
      (fun _ => no_dispatch_bind (no_dispatch_receive_callback _ _ _)
        (fun _ => no_dispatch_pure _))))

theorem no_dispatch_reply_result {σ : Type} (c : Env σ) (call : request) (ssid : String)
    (send_msg : Bool) (result : variant) :
    (reply_result c call ssid send_msg result).no_dispatch := by
  unfold reply_result
  split
  · exact no_dispatch_bind (no_dispatch_deref _) (fun _ => no_dispatch_bind
      (no_dispatch_lift _) (fun _ => no_dispatch_bind (no_dispatch_push _ _ _)
        (fun _ => no_dispatch_pure _)))
  · exact no_dispatch_pure _

theorem no_dispatch_reply_error {σ : Type} (c : Env σ) (call : request) (ssid : String)
    (send_msg : Bool) (e : fc_exception) :
    (reply_error c call ssid send_msg e).no_dispatch := by
  unfold reply_error
  exact no_dispatch_bind (no_dispatch_deref _) (fun _ => no_dispatch_bind
    (no_dispatch_lift _) (fun _ => no_dispatch_bind (no_dispatch_lift _)
      (fun _ => no_dispatch_bind (no_dispatch_push _ _ _) (fun _ => no_dispatch_pure _))))

/-- One dispatch is one invocation of the Dispatch Table. -/
theorem dispatches_local_call {σ : Type} (c : Env σ) (method_name : String) (args : variants)
    (w : World σ) :
    dispatches (local_call c method_name args w).2.2 = [(method_name, args)] := by
  have hh : ∀ (h : Eng σ variant), h.no_dispatch →
      dispatches ((Eng.emit (.local_call method_name args) >>= fun _ => h) w).2.2
        = [(method_name, args)] := by
    intro h hnd
    have := hnd w
    simp [run_bind, Eng.bind, Eng.emit, dispatches, this]
  rw [local_call_eq]
  split
  · exact hh _ (no_dispatch_call_handler _ _)
  · split
    · exact hh _ (no_dispatch_notice_handler _ _)
    · split
      · exact hh _ (no_dispatch_callback_handler _ _)
      · exact hh _ (no_dispatch_receive_call _ _ _ _)

/-- A decoded request invokes the Dispatch Table exactly once, whatever follows. -/
theorem dispatches_handle_request {σ : Type} (c : Env σ) (call : request) (ssid : String)
    (send_msg : Bool) (w : World σ) :
    dispatches (handle_request c call ssid send_msg w).2.2 = [(call.method, call.params)] := by
  have hinner : dispatches ((local_call c call.method call.params >>= fun result =>
      reply_result c call ssid send_msg result) w).2.2 = [(call.method, call.params)] := by
    rw [run_bind]
    rcases hcall : local_call c call.method call.params w with ⟨r, w1, tr⟩
    have hd := dispatches_local_call c call.method call.params w
    rw [hcall] at hd
    cases r with
    | error t => rw [bind_error hcall]; exact hd
    | ok v =>
      rw [bind_ok hcall]
      simp only [dispatches_append]
      rw [no_dispatch_reply_result c call ssid send_msg v w1]
      simpa using hd
  unfold handle_request
  rw [run_bind]
  obtain ⟨d, hd, -⟩ := try_dispatch_ok c call ssid send_msg w
  rcases htd : try_dispatch c call ssid send_msg w with ⟨r, w1, t1⟩
  have ht1 : dispatches t1 = [(call.method, call.params)] := by
    have := try_dispatch_run c call ssid send_msg w
    rw [htd] at this
    have h3 : t1 = ((local_call c call.method call.params >>= fun result =>
        reply_result c call ssid send_msg result) w).2.2 := by
      simpa using congrArg (fun x => x.2.2) this
    rw [h3]; exact hinner
  rw [htd] at hd
  simp only at hd
  subst hd
  rw [bind_ok htd]
  simp only [dispatches_append, ht1]
  cases d with
  | returned reply => simp [run_pure, dispatches]
  | fell_through o =>
    cases o with
    | none => simp [run_pure, dispatches]
    | some e => simp [no_dispatch_reply_error c call ssid send_msg e w1]


/-! ## What on_message sends -/

/-- The error reply sends nothing, or sends the one text it returns. -/
theorem reply_error_sends {σ : Type} (c : Env σ) {call : request} {i : Nat} (ssid : String)
    (send_msg : Bool) (e : fc_exception) (w : World σ) (hid : call.id = some i)
    (hsend : send_msg = true → ∀ text x, (c.send_message text x).1 = .ok ()) :
    sent (reply_error c call ssid send_msg e w).2.2 = [] ∨
      ∃ t, send_msg = true ∧ sent (reply_error c call ssid send_msg e w).2.2 = [t] ∧
        (reply_error c call ssid send_msg e w).1 = .ok t := by
  rcases hdata : c.exception_to_variant e c.max_depth with e1 | data
  · left
    simp [reply_error, hid, run_bind, Eng.bind, Eng.deref, Eng.pure, Eng.lift, hdata, sent]
  · rcases henc : serialize_response c (response.with_error i ssid
        { code := 1, message := e.to_string, data := data } "2.0") with e2 | t
    · left
      simp [reply_error, hid, run_bind, Eng.bind, Eng.deref, Eng.pure, Eng.lift, hdata, henc,
        sent]
    · rw [reply_error_run c ssid send_msg e w hid hdata henc]
      cases send_msg with
      | false => left; simp [sent]
      | true =>
        right
        refine ⟨t, rfl, ?_⟩
        simp [hsend rfl t w.ext, sent]

/-- A decoded request sends nothing, or, in duplex mode, sends the one text that
handle_request returns -- provided the transport does not fail. -/
theorem sent_handle_request {σ : Type} (c : Env σ) (call : request) (ssid : String)
    (send_msg : Bool) (w : World σ)
    (hsend : send_msg = true → ∀ text x, (c.send_message text x).1 = .ok ()) :
    sent (handle_request c call ssid send_msg w).2.2 = [] ∨
      ∃ t, send_msg = true ∧ sent (handle_request c call ssid send_msg w).2.2 = [t] ∧
        (handle_request c call ssid send_msg w).1 = .ok t := by
  rcases hid : call.id with _ | i
  · left
    rw [handle_request_notice c ssid send_msg w hid]
    exact (quiet_local_call c call.method call.params w).1
  · rcases hcall : local_call c call.method call.params w with ⟨r, w1, tr⟩
    have hq : sent tr = [] := by
      have := (quiet_local_call c call.method call.params w).1
      rw [hcall] at this
      exact this
    have herr : ∀ e : fc_exception,
        handle_request c call ssid send_msg w =
          ((reply_error c call ssid send_msg e w1).1,
           (reply_error c call ssid send_msg e w1).2.1,
           tr ++ (reply_error c call ssid send_msg e w1).2.2) →
        sent (handle_request c call ssid send_msg w).2.2 = [] ∨
          ∃ t, send_msg = true ∧ sent (handle_request c call ssid send_msg w).2.2 = [t] ∧
            (handle_request c call ssid send_msg w).1 = .ok t := by
      intro e he
      rw [he]
      simp only [sent_append, hq, List.nil_append]
      exact reply_error_sends c ssid send_msg e w1 hid hsend
    cases r with
    | error thrown => exact herr _ (handle_request_failure c ssid send_msg w w1 hid hcall)
    | ok v =>
      rcases henc : c.response_to_string (response.with_result i ssid v "2.0") c.max_depth
        with e1 | t
      · apply herr (c.capture (.fc e1) call.method call.params)
        unfold handle_request
        rw [run_bind]
        have htd : try_dispatch c call ssid send_msg w =
            (.ok (.fell_through (some (c.capture (.fc e1) call.method call.params))),
              w1, tr) := by
          rw [try_dispatch_run, run_bind, bind_ok hcall,
            reply_result_encode_error c ssid send_msg v w1 hid henc]
          simp [hid]
        rw [bind_ok htd]
      · have hs : send_msg = true → (c.send_message t w1.ext).1 = .ok () :=
          fun h => hsend h t w1.ext
        rw [handle_request_success c ssid send_msg w w1 hid hcall henc hs]
        cases send_msg with
        | false => left; simp [hq]
        | true => right; exact ⟨t, rfl, by simp [sent_append, hq, sent], rfl⟩

theorem catch_fc_pure_trace {σ α : Type} (body : Eng σ α) (f : fc_exception → α)
    (w : World σ) :
    (Eng.catch_fc body (fun e => pure (f e)) w).2.2 = (body w).2.2 ∧
      ∀ a, (body w).1 = .ok a → (Eng.catch_fc body (fun e => pure (f e)) w).1 = .ok a := by
  rcases h : body w with ⟨r, w1, t1⟩
  cases r with
  | ok a => simp [Eng.catch_fc, h]
  | error t => cases t <;> simp [Eng.catch_fc, h, run_pure, Eng.pure]

/-- The trace of on_message, whatever the message: at most one dispatch; and nothing
sent, or, in duplex mode with a transport that does not fail, exactly the text returned. -/
theorem on_message_trace {σ : Type} (c : Env σ) (message : String) (send_msg : Bool)
    (w : World σ) :
    (dispatches (on_message c message send_msg w).2.2).length ≤ 1 ∧
      ((send_msg = true → ∀ text x, (c.send_message text x).1 = .ok ()) →
        sent (on_message c message send_msg w).2.2 = [] ∨
          ∃ t, send_msg = true ∧ sent (on_message c message send_msg w).2.2 = [t] ∧
            (on_message c message send_msg w).1 = .ok t) := by
  rcases hd : decode c message with e | ⟨ssid, call | reply⟩
  · rw [on_message_decode_error c message send_msg w hd]
    exact ⟨by simp [dispatches], fun _ => Or.inl rfl⟩
  · rw [on_message_request c message send_msg w hd]
    obtain ⟨htr, hres⟩ := catch_fc_pure_trace (handle_request c call ssid send_msg)
      (fun e => e.to_detail_string) w
    rw [htr]
    refine ⟨by rw [dispatches_handle_request]; simp, fun hsend => ?_⟩
    rcases sent_handle_request c call ssid send_msg w hsend with h | ⟨t, h1, h2, h3⟩
    · exact Or.inl h
    · exact Or.inr ⟨t, h1, h2, hres t h3⟩
  · rw [on_message_response c message send_msg w hd]
    exact ⟨by simp [dispatches], fun _ => Or.inl rfl⟩


/-- The reply to a request with an id, success or error, in either delivery mode. -/
theorem on_message_reply_text {σ : Type} (c : Env σ) (message : String) (send_msg : Bool)
    (w w1 : World σ) {ssid : String} {call : request} {i : Nat}
    {r : Except Thrown variant} {tr : List Event} {t : String}
    (hdecode : decode c message = .ok (ssid, .inl call))
    (hid : call.id = some i)
    (hcall : local_call c call.method call.params w = (r, w1, tr))
    (hreply : (∃ v, r = .ok v ∧
        c.response_to_string
          { id := i, ssid := ssid, jsonrpc := "2.0", result := some v, error := none }
          c.max_depth = .ok t) ∨
      (∃ thrown data, r = .error thrown ∧
        c.exception_to_variant (c.capture thrown call.method call.params) c.max_depth
          = .ok data ∧
        serialize_response c
          { id := i, ssid := ssid, jsonrpc := "2.0", result := none,
            error := some { code := 1,
                            message := (c.capture thrown call.method call.params).to_string,
                            data := data } } = .ok t))
    (hsend : send_msg = true → (c.send_message t w1.ext).1 = .ok ()) :
    on_message c message send_msg w =
      (.ok t,
       (if send_msg then { w1 with ext := (c.send_message t w1.ext).2 } else w1),
       tr ++ (if send_msg then [Event.send_message t] else [])) := by
  rw [on_message_request c message send_msg w hdecode]
  apply catch_fc_of_ok
  rcases hreply with ⟨v, rfl, henc⟩ | ⟨thrown, data, rfl, hdata, henc⟩
  · exact handle_request_success c ssid send_msg w w1 hid hcall henc hsend
  · rw [handle_request_failure c ssid send_msg w w1 hid hcall,
      reply_error_run c ssid send_msg _ w1 hid hdata henc]
    cases send_msg with
    | false => simp
    | true => simp [hsend rfl]

/-! ## Delivery modes: the claims -/

/-- C14 (as amended): for an inbound request with an id delivered in duplex-push mode, the
reply `t` (the success or the error Response Envelope) is pushed to the transport once and
on_message returns that same text `t`, not the empty string; the text returned is the same
in both delivery modes, and in duplex mode it is the message hook of line 50 that drops
it. -/
theorem duplex_reply_pushed_and_returned {σ : Type} (c : Env σ) (message : String)
    (w w1 : World σ) (var : variant) (obj : List (String × variant)) (ssid : String)
    (call : request) (i : Nat) (r : Except Thrown variant) (tr : List Event) (t : String)
    (hparse : c.from_string message c.max_depth = .ok var)
    (hobj : get_object c var = .ok obj)
    (hssid : read_ssid c obj = .ok ssid)
    (hmethod : contains obj "method" = true)
    (hreq : c.as_request var c.max_depth = .ok call)
    (hid : call.id = some i)
    (hcall : local_call c call.method call.params w = (r, w1, tr))
    (hreply : (∃ v, r = .ok v ∧
        c.response_to_string
          { id := i, ssid := ssid, jsonrpc := "2.0", result := some v, error := none }
          c.max_depth = .ok t) ∨
      (∃ thrown data, r = .error thrown ∧
        c.exception_to_variant (c.capture thrown call.method call.params) c.max_depth
          = .ok data ∧
        serialize_response c
          { id := i, ssid := ssid, jsonrpc := "2.0", result := none,
            error := some { code := 1,
                            message := (c.capture thrown call.method call.params).to_string,
                            data := data } } = .ok t))
    (hsend : (c.send_message t w1.ext).1 = .ok ()) :
    on_message c message true w =
        (.ok t, { w1 with ext := (c.send_message t w1.ext).2 },
          tr ++ [Event.send_message t]) ∧
      on_message c message false w = (.ok t, w1, tr) ∧
      message_handler c message w =
        (.ok (), { w1 with ext := (c.send_message t w1.ext).2 },
          tr ++ [Event.send_message t]) := by
  have hdecode := decode_request c message hparse hobj hssid hmethod hreq
  have h1 := on_message_reply_text c message true w w1 hdecode hid hcall hreply (fun _ => hsend)
  have h2 := on_message_reply_text c message false w w1 hdecode hid hcall hreply (by simp)
  simp only [if_true] at h1
  refine ⟨h1, by simpa using h2, ?_⟩
  unfold message_handler
  rw [run_bind, bind_ok h1]
  simp [run_pure]

/-- C15: in inline-reply mode on_message never sends anything over the transport,
whatever the message; the hook of line 51 returns what on_message returns; and for a
request with an id the success or error Response Envelope `t` is the return value of
on_message, the trace being that of the dispatch alone. -/
theorem inline_mode_sends_nothing {σ : Type} (c : Env σ) (message : String) (w : World σ) :
    sent (on_message c message false w).2.2 = [] ∧
      http_handler c message w = on_message c message false w ∧
      ∀ (w1 : World σ) (var : variant) (obj : List (String × variant)) (ssid : String)
        (call : request) (i : Nat) (r : Except Thrown variant) (tr : List Event) (t : String),
        c.from_string message c.max_depth = .ok var →
        get_object c var = .ok obj →
        read_ssid c obj = .ok ssid →
        contains obj "method" = true →
        c.as_request var c.max_depth = .ok call →
        call.id = some i →
        local_call c call.method call.params w = (r, w1, tr) →
        ((∃ v, r = .ok v ∧
            c.response_to_string
              { id := i, ssid := ssid, jsonrpc := "2.0", result := some v, error := none }
              c.max_depth = .ok t) ∨
          (∃ thrown data, r = .error thrown ∧
            c.exception_to_variant (c.capture thrown call.method call.params) c.max_depth
              = .ok data ∧
            serialize_response c
              { id := i, ssid := ssid, jsonrpc := "2.0", result := none,
                error := some
                  { code := 1,
                    message := (c.capture thrown call.method call.params).to_string,
                    data := data } } = .ok t)) →
        on_message c message false w = (.ok t, w1, tr) := by
  refine ⟨?_, rfl, ?_⟩
  · rcases (on_message_trace c message false w).2 (by simp) with h | ⟨t, h, -, -⟩
    · exact h
    · simp at h
  · intro w1 var obj ssid call i r tr t hparse hobj hssid hmethod hreq hid hcall hreply
    have h := on_message_reply_text c message false w w1
      (decode_request c message hparse hobj hssid hmethod hreq) hid hcall hreply (by simp)
    simpa using h

/-- C16: for every inbound message and both delivery modes, on_message invokes the
Dispatch Table at most once; and when the transport's send does not fail, it sends at most
one message, and a text it sends is exactly the string it returns. -/
theorem on_message_at_most_once {σ : Type} (c : Env σ) (message : String) (send_msg : Bool)
    (w : World σ) :
    (dispatches (on_message c message send_msg w).2.2).length ≤ 1 ∧
      ((∀ text x, (c.send_message text x).1 = .ok ()) →
        (sent (on_message c message send_msg w).2.2).length ≤ 1 ∧
        ∀ t ∈ sent (on_message c message send_msg w).2.2,
          (on_message c message send_msg w).1 = .ok t) := by
  obtain ⟨hd, hs⟩ := on_message_trace c message send_msg w
  refine ⟨hd, fun hsend => ?_⟩
  rcases hs (fun _ => hsend) with h | ⟨t, -, h1, h2⟩
  · rw [h]; simp
  · rw [h1]
    refine ⟨by simp, ?_⟩
    intro t' ht'
    rw [List.mem_singleton] at ht'
    rw [ht']; exact h2


/-! ## The call convention and the delivery modes at the concrete deployment -/

theorem call_request_routes_to_target_witness :
    local_call demo.env2 "call" [.uint64 0, .string "get_info", .array []] demo.w0 =
        (.ok (.object [("version", .string "1.0")]), demo.w0,
         [Event.local_call "call" [.uint64 0, .string "get_info", .array []],
          Event.receive_call 0 "get_info" []]) ∧
      on_message demo.env2 demo.call_get_info_text true demo.w0 =
        (.ok demo.call_get_info_reply,
         { demo.w0 with ext := [demo.call_get_info_reply] },
         [Event.local_call "call" [.uint64 0, .string "get_info", .array []],
          Event.receive_call 0 "get_info" [],
          Event.send_message demo.call_get_info_reply]) :=
  have h := call_request_routes_to_target demo.env2 demo.call_get_info_text true demo.w0
    (.object [("id", .uint64 1), ("method", .string "call"),
      ("params", .array [.uint64 0, .string "get_info", .array []])])
    [("id", .uint64 1), ("method", .string "call"),
      ("params", .array [.uint64 0, .string "get_info", .array []])]
    "" { id := some 1, method := "call",
         params := [.uint64 0, .string "get_info", .array []] }
    1 (.uint64 0) 0 "get_info" [] rfl rfl rfl rfl rfl rfl rfl rfl rfl rfl rfl
  ⟨h.2.1, h.2.2 (.object [("version", .string "1.0")]) demo.w0 demo.call_get_info_reply
    rfl rfl (fun _ => rfl)⟩

/-- C12 as stated fails: the callback 42 returns "ack", and the success envelope that
on_message produces for the callback request with id 3 has the result null, not "ack". -/
theorem callback_result_counterexample :
    (demo.env2.receive_callback 42 [.string "x"] demo.w0).1 = .ok (.string "ack") ∧
      (on_message demo.env2 demo.callback_request_text false demo.w0).1 =
        .ok demo.callback_reply ∧
      demo.env2.response_to_string
        { id := 3, ssid := "", jsonrpc := "2.0", result := some (.string "ack"),
          error := none } demo.env2.max_depth = .ok demo.callback_reply_with_value ∧
      demo.callback_reply ≠ demo.callback_reply_with_value :=
  ⟨rfl, rfl, rfl, by decide⟩

theorem callback_request_replies_null_witness :
    local_call demo.env2 "callback" [.uint64 42, .array [.string "x"]] demo.w0 =
        (.ok .null, demo.w0,
         [Event.local_call "callback" [.uint64 42, .array [.string "x"]],
          Event.receive_callback 42 [.string "x"]]) ∧
      on_message demo.env2 demo.callback_request_text false demo.w0 =
        (.ok demo.callback_reply, demo.w0,
         [Event.local_call "callback" [.uint64 42, .array [.string "x"]],
          Event.receive_callback 42 [.string "x"]]) :=
  callback_request_replies_null demo.env2 demo.callback_request_text false demo.w0 demo.w0
    (.object [("id", .uint64 3), ("method", .string "callback"),
      ("params", .array [.uint64 42, .array [.string "x"]])])
    [("id", .uint64 3), ("method", .string "callback"),
      ("params", .array [.uint64 42, .array [.string "x"]])]
    "" { id := some 3, method := "callback", params := [.uint64 42, .array [.string "x"]] }
    3 (.uint64 42) 42 [.string "x"] (.string "ack") demo.callback_reply
    rfl rfl rfl rfl rfl rfl rfl rfl rfl rfl rfl (fun h => by simp at h)

/-- C13 as stated fails: the name "database" is resolved by a call on target id 1, which
returns 2; the same call on target id 0 fails, yet the dispatch succeeds with the result
of "get_block" on target 2. -/
theorem call_resolution_target_counterexample :
    local_call demo.env2 "call" [.string "database", .string "get_block", .array []]
        demo.w0 =
        (.ok (.object [("block", .uint64 7)]), demo.w0,
         [Event.local_call "call" [.string "database", .string "get_block", .array []],
          Event.receive_call 1 "database" [],
          Event.receive_call 2 "get_block" []]) ∧
      (demo.env2.receive_call 1 "database" [] demo.w0).1 = .ok (.uint64 2) ∧
      (demo.env2.receive_call 0 "database" [] demo.w0).1 = .error (.fc demo.bad_cast) :=
  ⟨rfl, rfl, rfl⟩

theorem call_resolves_name_on_api_one_witness :
    local_call demo.env2 "call" [.string "database", .string "get_block", .array []]
        demo.w0 =
      (.ok (.object [("block", .uint64 7)]), demo.w0,
       [Event.local_call "call" [.string "database", .string "get_block", .array []],
        Event.receive_call 1 "database" [],
        Event.receive_call 2 "get_block" []]) :=
  call_resolves_name_on_api_one demo.env2 (.string "database") "get_block" [] demo.w0 demo.w0
    "database" (.uint64 2) 2 rfl rfl rfl rfl rfl

/-- C14 as stated fails: in duplex mode the reply to the request with id 1 is pushed to the
transport and on_message returns that reply, not the empty string. -/
theorem duplex_return_counterexample :
    (on_message demo.env demo.get_info_text true demo.w0).1 = .ok demo.get_info_reply ∧
      sent (on_message demo.env demo.get_info_text true demo.w0).2.2 =
        [demo.get_info_reply] ∧
      demo.get_info_reply ≠ "" :=
  ⟨rfl, rfl, by decide⟩

theorem duplex_reply_pushed_and_returned_witness :
    on_message demo.env demo.fail_text true demo.w0 =
        (.ok demo.fail_reply, { demo.w0 with ext := [demo.fail_reply] },
          [Event.local_call "fail" [], Event.receive_call 0 "fail" [],
           Event.send_message demo.fail_reply]) ∧
      on_message demo.env demo.fail_text false demo.w0 =
        (.ok demo.fail_reply, demo.w0,
          [Event.local_call "fail" [], Event.receive_call 0 "fail" []]) ∧
      message_handler demo.env demo.fail_text demo.w0 =
        (.ok (), { demo.w0 with ext := [demo.fail_reply] },
          [Event.local_call "fail" [], Event.receive_call 0 "fail" [],
           Event.send_message demo.fail_reply]) :=
  duplex_reply_pushed_and_returned demo.env demo.fail_text demo.w0 demo.w0
    (.object [("id", .uint64 2), ("method", .string "fail"), ("params", .array [])])
    [("id", .uint64 2), ("method", .string "fail"), ("params", .array [])]
    "" { id := some 2, method := "fail", params := [] } 2 (.error (.fc demo.failure))
    [Event.local_call "fail" [], Event.receive_call 0 "fail" []]
    demo.fail_reply rfl rfl rfl rfl rfl rfl rfl
    (Or.inr ⟨.fc demo.failure,
      .object [("code", .int64 10), ("name", .string demo.failure.to_string)],
      rfl, rfl, rfl⟩)
    rfl

theorem inline_mode_sends_nothing_witness :
    sent (on_message demo.env2 demo.call_get_info_text false demo.w0).2.2 = [] ∧
      on_message demo.env2 demo.call_get_info_text false demo.w0 =
        (.ok demo.call_get_info_reply, demo.w0,
         [Event.local_call "call" [.uint64 0, .string "get_info", .array []],
          Event.receive_call 0 "get_info" []]) :=
  have h := inline_mode_sends_nothing demo.env2 demo.call_get_info_text demo.w0
  ⟨h.1, h.2.2 demo.w0
    (.object [("id", .uint64 1), ("method", .string "call"),
      ("params", .array [.uint64 0, .string "get_info", .array []])])
    [("id", .uint64 1), ("method", .string "call"),
      ("params", .array [.uint64 0, .string "get_info", .array []])]
    "" { id := some 1, method := "call",
         params := [.uint64 0, .string "get_info", .array []] }
    1 (.ok (.object [("version", .string "1.0")]))
    [Event.local_call "call" [.uint64 0, .string "get_info", .array []],
     Event.receive_call 0 "get_info" []]
    demo.call_get_info_reply rfl rfl rfl rfl rfl rfl rfl
    (Or.inl ⟨.object [("version", .string "1.0")], rfl, rfl⟩)⟩

theorem on_message_at_most_once_witness :
    (dispatches (on_message demo.env demo.get_info_text true demo.w0).2.2).length ≤ 1 ∧
      (sent (on_message demo.env demo.get_info_text true demo.w0).2.2).length ≤ 1 ∧
      ∀ t ∈ sent (on_message demo.env demo.get_info_text true demo.w0).2.2,
        (on_message demo.env demo.get_info_text true demo.w0).1 = .ok t :=
  have h := on_message_at_most_once demo.env demo.get_info_text true demo.w0
  ⟨h.1, h.2 (fun _ _ => rfl)⟩

theorem builtin_handlers_reject_malformed_witness :
    local_call demo.env2 "call" [.uint64 0, .string "get_info"] demo.w0 =
        (.error (.fc (demo.env2.assert_exception "args.size() == 3 && args[2].is_array()")),
         demo.w0, [Event.local_call "call" [.uint64 0, .string "get_info"]]) ∧
      on_message demo.env2 demo.malformed_call_text true demo.w0 =
        (.ok demo.malformed_call_reply, { demo.w0 with ext := [demo.malformed_call_reply] },
         [Event.local_call "call" [.uint64 0, .string "get_info"],
          Event.send_message demo.malformed_call_reply]) :=
  have h := builtin_handlers_reject_malformed demo.env2 "call" [.uint64 0, .string "get_info"]
    demo.w0 (Or.inl ⟨rfl, by simp⟩)
  ⟨h.1, h.2 demo.malformed_call_text true
    (.object [("id", .uint64 4), ("method", .string "call"),
      ("params", .array [.uint64 0, .string "get_info"])])
    [("id", .uint64 4), ("method", .string "call"),
      ("params", .array [.uint64 0, .string "get_info"])]
    "" { id := some 4, method := "call", params := [.uint64 0, .string "get_info"] } 4
    (.object [("code", .int64 10),
      ("name", .string "Assert Exception: args.size() == 3 && args[2].is_array()")])
    demo.malformed_call_reply rfl rfl rfl rfl rfl rfl rfl rfl rfl rfl (fun _ => rfl)⟩

end fc
